import Mathlib

/-!
Verification development for SmartHomeSystem: a shallow embedding of the dashboard components.

The React components of `src/src/*.jsx` are modelled as explicit state records and
state-passing functions.

* `useState` cells become fields of a state record; a `setX(v)` call becomes a field update,
  and the updates of one event are applied together before the next render.
* `client && client.connected` becomes the field `connected`.
* `client.publish(topic, JSON.stringify(obj))` appends a `Msg` to the field `published`,
  the trace of everything the component has handed to the MQTT client.
* `client.on("message", f)` adds `f` to the listeners of the client; a listener is given by the
  values of the render it closed over.
* `JSON.parse(message.toString())` is modelled by its result: `none` when it throws,
  `some v` for the decoded value `v`.
* JavaScript numbers are modelled by `Int` (readings and thresholds in the source are integers).
* `console.log`, `console.error`, `alert` and `localStorage` writes have no effect on the
  modelled state and are left out.
-/

namespace SmartHome

/-! Section: JSON values and bus messages. -/

/-- Decoded JSON values (the results of `JSON.parse`, the arguments of `JSON.stringify`). -/
inductive JVal where
  | null
  | bool (b : Bool)
  | num (n : Int)
  | str (s : String)
  | arr (items : List JVal)
  | obj (fields : List (String × JVal))
  deriving Repr, Inhabited

/-- One `client.publish(topic, JSON.stringify(payload))` call, or one delivered message. -/
structure Msg where
  topic : String
  payload : JVal
  deriving Repr, Inhabited

/-- Key lookup in a decoded object; with duplicate keys `JSON.parse` keeps the last one. -/
def lookupField (key : String) : List (String × JVal) → Option JVal
  | [] => none
  | (k, v) :: rest =>
    match lookupField key rest with
    | some w => some w
    | none => if k = key then some v else none

/-- Property read `payload.key` for the plain data keys the handlers use.
`Except.error ()` is the `TypeError` of reading a property of `null`; `none` is `undefined`
(missing key, or a number, string, boolean or array, none of which carries these keys). -/
def JVal.prop (payload : JVal) (key : String) : Except Unit (Option JVal) :=
  match payload with
  | .null => .error ()
  | .obj fields => .ok (lookupField key fields)
  | _ => .ok none

/-- JavaScript truthiness of a property read (`undefined` is `none`). -/
def truthy : Option JVal → Bool
  | none => false
  | some .null => false
  | some (.bool b) => b
  | some (.num n) => n != 0
  | some (.str s) => s != ""
  | some (.arr _) => true
  | some (.obj _) => true

mutual
/-- String conversion of a value inside a template literal. -/
def JVal.toStr : JVal → String
  | .null => "null"
  | .bool b => if b then "true" else "false"
  | .num n => toString n
  | .str s => s
  | .arr items => JVal.joinStr items
  | .obj _ => "[object Object]"
/-- The method `Array.prototype.join` with the default separator. -/
def JVal.joinStr : List JVal → String
  | [] => ""
  | [x] => JVal.elemStr x
  | x :: y :: rest => JVal.elemStr x ++ "," ++ JVal.joinStr (y :: rest)
/-- String conversion of an array element: `null` joins as the empty string. -/
def JVal.elemStr : JVal → String
  | .null => ""
  | .bool b => if b then "true" else "false"
  | .num n => toString n
  | .str s => s
  | .arr items => JVal.joinStr items
  | .obj _ => "[object Object]"
end

/-- Strict equality `v === "literal"` of a property read against a string literal. -/
def strictEqStr (v : Option JVal) (lit : String) : Bool :=
  match v with
  | some (.str s) => s == lit
  | _ => false

/-- The wall clock as read during one synchronous handler run: `getHours()`, `getMinutes()`,
`Date.now()` and `toLocaleTimeString()`. The clock is taken not to advance within one run. -/
structure Clock where
  hours : Nat
  minutes : Nat
  ms : Nat
  timeString : String
  deriving Repr, DecidableEq, Inhabited

/-! Section: WeatherIntegration.jsx, the automation rule engine. -/

/-- The weather reading handed to `checkAutomations` (`currentWeather`). -/
structure Weather where
  temp : Int
  condition : String
  icon : String
  humidity : Int
  windSpeed : Int
  deriving Repr, DecidableEq, Inhabited

/-- An automation rule (an element of `automations`). -/
structure Automation where
  id : Nat
  name : String
  condition : String
  action : String
  enabled : Bool
  time : String
  deriving Repr, DecidableEq, Inhabited

/-- An entry of `automationLog`. -/
structure AutomationLogEntry where
  id : Nat
  time : String
  message : String
  deriving Repr, DecidableEq, Inhabited

/-- The state of the WeatherIntegration component that the rule engine reads and writes. -/
structure WeatherState where
  connected : Bool
  automations : List Automation
  automationLog : List AutomationLogEntry
  published : List Msg
  deriving Repr, Inhabited

/-- The initial value of `automations` (lines 16 to 41). -/
def initialAutomations : List Automation :=
  [ { id := 1, name := "Close blinds on sunny days", condition := "sunny",
      action := "closeBlinds", enabled := true, time := "09:00" },
    { id := 2, name := "Turn on lights when cloudy", condition := "cloudy",
      action := "lightsOn", enabled := true, time := "immediate" },
    { id := 3, name := "Increase temperature when cold", condition := "cold",
      action := "increaseTemp", enabled := false, time := "immediate" } ]

/-- The weather-condition test of `checkAutomations` (lines 224 to 239): the value of
`shouldTrigger` after the `if / else if` chain. -/
def conditionGate (condition : String) (currentWeather : Weather) : Bool :=
  if condition == "sunny" && ["sunny", "hot"].contains currentWeather.condition then true
  else if condition == "cloudy" && ["cloudy", "partly_cloudy"].contains currentWeather.condition then true
  else if condition == "rainy" && currentWeather.condition == "rainy" then true
  else if condition == "windy" && decide (currentWeather.windSpeed > 20) then true
  else if condition == "cold" && decide (currentWeather.temp < 10) then true
  else if condition == "hot" && decide (currentWeather.temp > 30) then true
  else false

/-- The method `String.prototype.split` for a one-character separator. -/
def splitOnChar (sep : Char) : List Char → List (List Char)
  | [] => [[]]
  | c :: cs =>
    if c = sep then [] :: splitOnChar sep cs
    else
      match splitOnChar sep cs with
      | [] => [[c]]
      | seg :: rest => (c :: seg) :: rest

/-- White space and line terminators skipped by `parseInt` before the number. -/
def isStrWhiteSpaceChar (c : Char) : Bool :=
  let n := c.toNat
  n == 9 || n == 10 || n == 11 || n == 12 || n == 13 || n == 32 || n == 160 ||
  n == 0x1680 || (decide (0x2000 ≤ n) && decide (n ≤ 0x200A)) || n == 0x2028 || n == 0x2029 ||
  n == 0x202F || n == 0x205F || n == 0x3000 || n == 0xFEFF

/-- The value of a character as a digit (letters count from ten, as for radix 16). -/
def digitValue (c : Char) : Option Nat :=
  let n := c.toNat
  if 48 ≤ n ∧ n ≤ 57 then some (n - 48)
  else if 97 ≤ n ∧ n ≤ 122 then some (n - 87)
  else if 65 ≤ n ∧ n ≤ 90 then some (n - 55)
  else none

/-- The longest prefix of digits below the radix, as digit values. -/
def takeDigits (radix : Nat) : List Char → List Nat
  | [] => []
  | c :: cs =>
    match digitValue c with
    | some d => if d < radix then d :: takeDigits radix cs else []
    | none => []

/-- The function `parseInt(s)` without a radix argument; `none` is `NaN`. Skips leading white space,
reads an optional sign and an optional `0x` prefix, then the longest run of digits. -/
def parseInt (s : List Char) : Option Int :=
  let s1 := s.dropWhile isStrWhiteSpaceChar
  let signed : Bool × List Char :=
    match s1 with
    | '-' :: r => (true, r)
    | '+' :: r => (false, r)
    | _ => (false, s1)
  let based : Nat × List Char :=
    match signed.2 with
    | '0' :: 'x' :: r => (16, r)
    | '0' :: 'X' :: r => (16, r)
    | _ => (10, signed.2)
  let ds := takeDigits based.1 based.2
  if ds.isEmpty then none
  else
    let magnitude : Nat := ds.foldl (fun acc d => acc * based.1 + d) 0
    some (if signed.1 then -(magnitude : Int) else (magnitude : Int))

/-- The expression `parseInt(automation.time.split(':')[i])`; a missing segment is `undefined`,
which parses to `NaN`. -/
def parseTimePart (time : String) (i : Nat) : Option Int :=
  match (splitOnChar ':' time.toList).get? i with
  | some seg => parseInt seg
  | none => none

/-- The comparison `nowHour !== autoTimeHour`; `NaN` differs from every number. -/
def hourDiffers (nowHour : Nat) (autoTimeHour : Option Int) : Bool :=
  match autoTimeHour with
  | some h => decide ((nowHour : Int) ≠ h)
  | none => true

/-- The comparison `Math.abs(nowMinute - autoTimeMinute) > 5`; every comparison with `NaN` is false. -/
def minuteTooFar (nowMinute : Nat) (autoTimeMinute : Option Int) : Bool :=
  match autoTimeMinute with
  | some m => decide (|(nowMinute : Int) - m| > 5)
  | none => false

/-- The time constraint of `checkAutomations` (lines 241 to 252): `true` when the constraint
leaves `shouldTrigger` as it is, `false` when it forces `shouldTrigger = false`. -/
def scheduleGate (time : String) (nowHour nowMinute : Nat) : Bool :=
  if time != "immediate" then
    let autoTimeHour := parseTimePart time 0
    let autoTimeMinute := parseTimePart time 1
    if hourDiffers nowHour autoTimeHour || minuteTooFar nowMinute autoTimeMinute then false
    else true
  else true

/-- The final value of `shouldTrigger` for one rule (lines 224 to 252). -/
def shouldTrigger (automation : Automation) (currentWeather : Weather) (now : Clock) : Bool :=
  let afterCondition := conditionGate automation.condition currentWeather
  if scheduleGate automation.time now.hours now.minutes then afterCondition else false

/-- The command published for an action (the `switch` of lines 267 to 288); `none` is the
`default` branch. -/
def actionCommand (action : String) : Option Msg :=
  if action == "lightsOn" then some ⟨"home/light", .obj [("light", .bool true)]⟩
  else if action == "lightsOff" then some ⟨"home/light", .obj [("light", .bool false)]⟩
  else if action == "closeBlinds" then some ⟨"home/blinds", .obj [("closed", .bool true)]⟩
  else if action == "openBlinds" then some ⟨"home/blinds", .obj [("closed", .bool false)]⟩
  else if action == "increaseTemp" then some ⟨"home/temperature", .obj [("temperature", .num 24)]⟩
  else if action == "decreaseTemp" then some ⟨"home/temperature", .obj [("temperature", .num 20)]⟩
  else none

/-- The function `triggerAutomation` (lines 262 to 299). -/
def triggerAutomation (st : WeatherState) (automation : Automation) (now : Clock) : WeatherState :=
  let published :=
    if st.connected then
      match actionCommand automation.action with
      | some msg => st.published ++ [msg]
      | none => st.published
    else st.published
  let logEntry : AutomationLogEntry :=
    { id := now.ms, time := now.timeString, message := "Triggered: " ++ automation.name }
  { st with published := published, automationLog := (logEntry :: st.automationLog).take 5 }

/-- The function `checkAutomations` (lines 217 to 259): one pass of `automations.forEach`. -/
def checkAutomations (st : WeatherState) (currentWeather : Weather) (now : Clock) : WeatherState :=
  st.automations.foldl
    (fun s automation =>
      if !automation.enabled then s
      else if shouldTrigger automation currentWeather now then triggerAutomation s automation now
      else s)
    st

/-- The rules that fire in one evaluation: enabled, condition matched, schedule gate passed. -/
def firingRules (automations : List Automation) (currentWeather : Weather) (now : Clock) :
    List Automation :=
  automations.filter fun a =>
    a.enabled && conditionGate a.condition currentWeather && scheduleGate a.time now.hours now.minutes

/-- The value of an HTML time input for hour `h` and minute `m`: two digits, a colon, two digits. -/
def hhmm (h m : Nat) : String :=
  String.mk [Char.ofNat (48 + h / 10), Char.ofNat (48 + h % 10), ':',
             Char.ofNat (48 + m / 10), Char.ofNat (48 + m % 10)]

/-! Section: SecurityFeatures.jsx, the alarm state machine. -/

/-- An entry of `activityLog`; the sample entry of line 34 has no `id`. -/
structure ActivityEntry where
  id : Option Nat
  type : String
  timestamp : Int
  message : String
  deriving Repr, DecidableEq, Inhabited

/-- A `"message"` listener registered by the subscription effect (line 66), given by the values
of the render it closed over: `alarmArmed`, `alarmTriggered` and, through `logActivity`,
`activityLog`. -/
structure Listener where
  alarmArmed : Bool
  alarmTriggered : Bool
  activityLog : List ActivityEntry
  deriving Repr, DecidableEq, Inhabited

/-- The state of the SecurityFeatures component together with the listeners it has registered
on the client and the trace of its publishes. `connected` is the live value of
`client && client.connected`; `shownConnected` is the value it had when the component last
rendered, from which the `disabled` attributes of the buttons on the page were computed;
`connectionStatus` is the dashboard state of that name, whose change re-renders the page. -/
structure SecurityState where
  connected : Bool
  cameraOn : Bool
  alarmArmed : Bool
  alarmTriggered : Bool
  activityLog : List ActivityEntry
  listeners : List Listener
  published : List Msg
  shownConnected : Bool
  connectionStatus : String
  deriving Repr, Inhabited

/-- The function `logActivity` (lines 188 to 203) of the render whose `activityLog` is `captured`;
`now` is `Date.now()`. The copy written to `localStorage` is not modelled. -/
def logActivity (captured : List ActivityEntry) (type message : String) (now : Nat)
    (st : SecurityState) : SecurityState :=
  let newEntry : ActivityEntry := { id := some now, type := type, timestamp := (now : Int), message := message }
  let updatedLog := (newEntry :: captured).take 50
  { st with activityLog := updatedLog }

/-- The expression `value || fallback` inside a template literal. -/
def orElseStr (value : Option JVal) (fallback : String) : String :=
  match value with
  | some v => if truthy (some v) then v.toStr else fallback
  | none => fallback

/-- The message published when the alarm trips (lines 76 and 86). -/
def triggeredMsg : Msg := ⟨"home/security/alarm", .obj [("triggered", .bool true)]⟩

/-- The first `if` of the message listener (lines 70 to 78). An `Except.error` carries the state
at the point where reading a property of `null` throws. -/
def onMotion (l : Listener) (now : Nat) (topic : String) (payload : JVal)
    (st : SecurityState) : Except SecurityState SecurityState :=
  if topic == "home/security/motion" then
    match payload.prop "detected", payload.prop "location" with
    | .ok detected, .ok location =>
      if truthy detected then
        let st1 := logActivity l.activityLog "motion"
          ("Motion detected at " ++ orElseStr location "unknown location") now st
        if l.alarmArmed && !l.alarmTriggered then
          .ok { st1 with alarmTriggered := true, published := st1.published ++ [triggeredMsg] }
        else .ok st1
      else .ok st
    | _, _ => .error st
  else .ok st

/-- The second `if` of the message listener (lines 80 to 88). -/
def onDoor (l : Listener) (now : Nat) (topic : String) (payload : JVal)
    (st : SecurityState) : Except SecurityState SecurityState :=
  if topic == "home/security/door" then
    match payload.prop "action", payload.prop "location" with
    | .ok action, .ok location =>
      if truthy action then
        let st1 := logActivity l.activityLog "door"
          ("Door " ++ orElseStr action "" ++ " at " ++ orElseStr location "main entrance") now st
        if l.alarmArmed && strictEqStr action "opened" && !l.alarmTriggered then
          .ok { st1 with alarmTriggered := true, published := st1.published ++ [triggeredMsg] }
        else .ok st1
      else .ok st
    | _, _ => .error st
  else .ok st

/-- The third `if` of the message listener (lines 90 to 92). -/
def onAlarm (topic : String) (payload : JVal)
    (st : SecurityState) : Except SecurityState SecurityState :=
  if topic == "home/security/alarm" then
    match payload.prop "reset" with
    | .ok reset => if truthy reset then .ok { st with alarmTriggered := false } else .ok st
    | .error _ => .error st
  else .ok st

/-- One run of the message listener `l` (lines 66 to 96) on a delivered message. `message` is
the result of `JSON.parse`; a throw inside `try` leaves the updates made so far. -/
def securityMessageHandler (l : Listener) (now : Nat) (topic : String) (message : Option JVal)
    (st : SecurityState) : SecurityState :=
  match message with
  | none => st
  | some payload =>
    match (onMotion l now topic payload st).bind fun s1 =>
          (onDoor l now topic payload s1).bind fun s2 => onAlarm topic payload s2 with
    | .ok s => s
    | .error s => s

/-- The emitter call for one incoming message: every registered listener runs, in registration
order, each with its own captured values. -/
def emitMessage (now : Nat) (topic : String) (message : Option JVal)
    (st : SecurityState) : SecurityState :=
  st.listeners.foldl (fun s l => securityMessageHandler l now topic message s) st

/-- The subscription effect (lines 60 to 106) after a render that took the component from `pre`
to `post`. Its dependencies are `[client, alarmArmed, alarmTriggered]`; when one of the two
flags changed and the client is connected it registers a new listener with `client.on`. The
cleanup only unsubscribes the topics: no listener is ever removed. -/
def subscriptionEffect (pre post : SecurityState) : SecurityState :=
  if (pre.alarmArmed != post.alarmArmed || pre.alarmTriggered != post.alarmTriggered)
      && post.connected then
    { post with listeners := post.listeners ++
        [{ alarmArmed := post.alarmArmed, alarmTriggered := post.alarmTriggered,
           activityLog := post.activityLog }] }
  else post

/-- The function `toggleAlarm` (lines 141 to 154). -/
def toggleAlarm (st : SecurityState) (now : Nat) : SecurityState :=
  let newState := !st.alarmArmed
  let st1 := { st with alarmArmed := newState, alarmTriggered := false }
  let st2 :=
    if st1.connected then
      { st1 with published := st1.published ++
          [⟨"home/security/alarm", .obj [("armed", .bool newState), ("triggered", .bool false)]⟩] }
    else st1
  logActivity st.activityLog "system"
    ("Alarm system " ++ (if newState then "armed" else "disarmed")) now st2

/-- The function `resetAlarm` (lines 157 to 168). -/
def resetAlarm (st : SecurityState) (now : Nat) : SecurityState :=
  let st1 := { st with alarmTriggered := false }
  let st2 :=
    if st1.connected then
      { st1 with published := st1.published ++
          [⟨"home/security/alarm", .obj [("reset", .bool true), ("triggered", .bool false)]⟩] }
    else st1
  logActivity st.activityLog "system" "Alarm reset" now st2

/-- The `disabled` attribute of the Arm/Disarm button (line 251) as the page shows it: computed
at the last render, so from the connection flag of that render and from the state
`alarmTriggered`, whose every change re-renders the component. -/
def armDisarmDisabled (st : SecurityState) : Bool :=
  !st.shownConnected || st.alarmTriggered

/-- A click on the Arm/Disarm button (lines 244 to 254): `toggleAlarm` unless the button is
disabled. -/
def armDisarmButton (st : SecurityState) (now : Nat) : SecurityState :=
  if armDisarmDisabled st then st else toggleAlarm st now

/-- A click on the Reset Alarm button (lines 255 to 264), which is rendered only while
`alarmTriggered` holds. -/
def resetButton (st : SecurityState) (now : Nat) : SecurityState :=
  if st.alarmTriggered then resetAlarm st now else st

/-- The inputs of the alarm state machine: the two buttons, an incoming message, the client
reaching or losing its connection (`client.connected` changes; no hook depends on it), an error
reported by the client, and a re-render caused by the dashboard for a reason of its own. -/
inductive SecurityEvent where
  | clickArmDisarm (now : Nat)
  | clickReset (now : Nat)
  | message (now : Nat) (topic : String) (payload : Option JVal)
  | connect
  | connectionLost
  | connectionError (message : String)
  | parentRender
  deriving Repr, Inhabited

/-- A render of the component: the page now shows the live connection flag. -/
def render (st : SecurityState) : SecurityState :=
  { st with shownConnected := st.connected }

/-- Whether a registered listener writes the activity log for a message: the tests of lines 70
and 80, which do not depend on the listener. -/
def writesLog (topic : String) (message : Option JVal) : Bool :=
  match message with
  | none => false
  | some payload =>
    (topic == "home/security/motion" &&
      (match payload.prop "detected" with
       | .ok detected => truthy detected
       | .error _ => false))
    || (topic == "home/security/door" &&
      (match payload.prop "action" with
       | .ok action => truthy action
       | .error _ => false))

/-- Whether the delivery of a message re-renders the component: some listener set the activity
log (always a new array) or the delivery changed `alarmTriggered`. -/
def messageRerenders (topic : String) (message : Option JVal) (pre post : SecurityState) :
    Bool :=
  (!pre.listeners.isEmpty && writesLog topic message)
    || pre.alarmTriggered != post.alarmTriggered

/-- One event followed by the render and the subscription effect it causes. A click on a
disabled or absent button is no event at all. A handler that ran has changed the state, so the
component re-renders. The `connect` and `error` handlers of the dashboard (App.jsx lines 237 to
247) set `connectionStatus`, which re-renders the page when the status changes; losing the
connection sets no state and re-renders nothing. -/
def securityStep (st : SecurityState) (ev : SecurityEvent) : SecurityState :=
  subscriptionEffect st
    (match ev with
     | .clickArmDisarm now =>
       if armDisarmDisabled st then st else render (armDisarmButton st now)
     | .clickReset now =>
       if st.alarmTriggered then render (resetButton st now) else st
     | .message now topic payload =>
       if messageRerenders topic payload st (emitMessage now topic payload st) then
         render (emitMessage now topic payload st)
       else emitMessage now topic payload st
     | .connect =>
       if st.connectionStatus != "Connected" then
         render { st with connected := true, connectionStatus := "Connected" }
       else { st with connected := true }
     | .connectionLost => { st with connected := false }
     | .connectionError message =>
       if st.connectionStatus != "Error: " ++ message then
         render { st with connectionStatus := "Error: " ++ message }
       else st
     | .parentRender => render st)

/-- A sequence of events, each processed to completion before the next. -/
def securityRun (st : SecurityState) (evs : List SecurityEvent) : SecurityState :=
  evs.foldl securityStep st

/-- The component after mounting without saved security preferences (lines 5 to 9, 21 to 39 and
60 to 97): disarmed, not triggered, the activity log loaded from storage or set to the sample
entry, and, when the client is already connected, the listener of the first render, which closed
over the empty log. The page shows the connection flag of the mount; the dashboard status is
`Connected` exactly when its `connect` handler has run. -/
def mountSecurity (connected : Bool) (savedLog : Option (List ActivityEntry)) (now : Nat) :
    SecurityState :=
  { connected := connected
    cameraOn := false
    alarmArmed := false
    alarmTriggered := false
    activityLog :=
      match savedLog with
      | some log => log
      | none => [{ id := none, type := "system", timestamp := (now : Int) - 86400000,
                   message := "Security system initialized" }]
    listeners :=
      if connected then [{ alarmArmed := false, alarmTriggered := false, activityLog := [] }]
      else []
    published := []
    shownConnected := connected
    connectionStatus := if connected then "Connected" else "Disconnected" }


/-- A delivered `home/security/motion` message with payload `{detected: true}`. -/
def motionDetected (now : Nat) : SecurityEvent :=
  .message now "home/security/motion" (some (.obj [("detected", .bool true)]))

/-- A delivered `home/security/door` message with payload `{action: "opened"}`. -/
def doorOpened (now : Nat) : SecurityEvent :=
  .message now "home/security/door" (some (.obj [("action", .str "opened")]))

/-- The message `toggleAlarm` publishes for the new armed flag (lines 147 to 150). -/
def armedMsg (armed : Bool) : Msg :=
  ⟨"home/security/alarm", .obj [("armed", .bool armed), ("triggered", .bool false)]⟩

/-- The message `resetAlarm` publishes (lines 161 to 164). -/
def resetMsg : Msg :=
  ⟨"home/security/alarm", .obj [("reset", .bool true), ("triggered", .bool false)]⟩

/-- The component as the application mounts it (the client not yet connected), then the client
connecting. -/
def connectedStart : SecurityState :=
  securityRun (mountSecurity false none 0) [.connect]

/-- An enabled rule with condition `hot`, no time constraint, switching the lights on. -/
def hotRule : Automation :=
  { id := 7, name := "Lights on when hot", condition := "hot", action := "lightsOn",
    enabled := true, time := "immediate" }

/-- The alarm armed, tripped by a motion message, then reset: armed and not triggered. -/
def afterResetState : SecurityState :=
  securityRun connectedStart [.clickArmDisarm 1, motionDetected 2, .clickReset 3]

/-- The alarm armed and then disarmed: not armed and not triggered. -/
def afterDisarmState : SecurityState :=
  securityRun connectedStart [.clickArmDisarm 1, .clickArmDisarm 2]

/-- The alarm armed and then tripped by a motion message: armed and triggered. -/
def afterTriggerState : SecurityState :=
  securityRun connectedStart [.clickArmDisarm 1, motionDetected 2]

/-- The alarm armed and tripped, then the client losing its connection. -/
def triggeredOfflineState : SecurityState :=
  securityRun connectedStart [.clickArmDisarm 1, motionDetected 2, .connectionLost]

/-- The component mounted, the client connected and then the connection lost: the alarm is
disarmed and the page, not rendered since, still shows the Arm/Disarm button enabled. -/
def disarmedOfflineState : SecurityState :=
  securityRun connectedStart [.connectionLost]

/-- A delivered `home/security/door` message with the given action, at the Front Door
(the payload of `simulateEvent("door")` when the action is `opened`). -/
def doorMessage (action : String) (now : Nat) : SecurityEvent :=
  .message now "home/security/door"
    (some (.obj [("action", .str action), ("location", .str "Front Door")]))

/-- The number of entries of the given types in an activity log. -/
def countTypes (types : List String) (log : List ActivityEntry) : Nat :=
  (log.filter fun e => types.contains e.type).length

/-- The alarm armed, then a door message with action `closed` (logged, the alarm not tripped). -/
def afterDoorClosedState : SecurityState :=
  securityRun connectedStart [.clickArmDisarm 1, doorMessage "closed" 2]

/-! Section: WeatherIntegration.jsx, editing the rule list. -/

/-- The form state `newAutomation`. -/
structure NewAutomation where
  name : String
  condition : String
  action : String
  enabled : Bool
  time : String
  deriving Repr, DecidableEq, Inhabited

/-- The blank form (lines 43 to 49 and 323 to 329). -/
def blankAutomation : NewAutomation :=
  { name := "", condition := "sunny", action := "closeBlinds", enabled := true,
    time := "immediate" }

/-- The state the rule-list commands read and write: `automations`, `newAutomation` and
`showAddForm`. -/
structure RuleEditor where
  automations : List Automation
  newAutomation : NewAutomation
  showAddForm : Bool
  deriving Repr, DecidableEq, Inhabited

/-- The function `toggleAutomation` (lines 302 to 306). -/
def toggleAutomation (ed : RuleEditor) (id : Nat) : RuleEditor :=
  { ed with automations :=
      ed.automations.map fun auto =>
        if auto.id = id then { auto with enabled := !auto.enabled } else auto }

/-- The function `addAutomation` (lines 309 to 331); `now` is `Date.now()`. An empty name is
falsy and the function returns before any update. -/
def addAutomation (ed : RuleEditor) (now : Nat) : RuleEditor :=
  if ed.newAutomation.name = "" then ed
  else
    let automation : Automation :=
      { id := now
        name := ed.newAutomation.name
        condition := ed.newAutomation.condition
        action := ed.newAutomation.action
        enabled := ed.newAutomation.enabled
        time := ed.newAutomation.time }
    { automations := ed.automations ++ [automation]
      newAutomation := blankAutomation
      showAddForm := false }

/-- The function `deleteAutomation` (lines 334 to 336). -/
def deleteAutomation (ed : RuleEditor) (id : Nat) : RuleEditor :=
  { ed with automations := ed.automations.filter fun auto => auto.id != id }

/-- The rule editor of a freshly mounted component. -/
def initialEditor : RuleEditor :=
  { automations := initialAutomations, newAutomation := blankAutomation, showAddForm := false }

/-- The commands on the rule list: submitting the add form as filled in, toggling and deleting
a rule. -/
inductive RuleEvent where
  | add (form : NewAutomation) (now : Nat)
  | toggle (id : Nat)
  | delete (id : Nat)
  deriving Repr, DecidableEq, Inhabited

/-- One command on the rule list. -/
def ruleStep (ed : RuleEditor) (ev : RuleEvent) : RuleEditor :=
  match ev with
  | .add form now => addAutomation { ed with newAutomation := form } now
  | .toggle id => toggleAutomation ed id
  | .delete id => deleteAutomation ed id

/-- A sequence of commands on the rule list. -/
def ruleRun (ed : RuleEditor) (evs : List RuleEvent) : RuleEditor :=
  evs.foldl ruleStep ed

/-- The clock readings of the add commands of a sequence, in order. -/
def addTimes : List RuleEvent → List Nat
  | [] => []
  | .add _ now :: rest => now :: addTimes rest
  | _ :: rest => addTimes rest

/-- The log entry `triggerAutomation` writes for a rule. -/
def firingEntry (automation : Automation) (now : Clock) : AutomationLogEntry :=
  { id := now.ms, time := now.timeString, message := "Triggered: " ++ automation.name }

/-- The commands one evaluation publishes when the client is connected: the command of every
firing rule, in order. -/
def firedCommands (automations : List Automation) (currentWeather : Weather) (now : Clock) :
    List Msg :=
  (firingRules automations currentWeather now).filterMap fun a => actionCommand a.action

/-- Repeated evaluation: `checkAutomations` run `n` times in a row. -/
def checkRepeatedly (n : Nat) (st : WeatherState) (currentWeather : Weather) (now : Clock) :
    WeatherState :=
  match n with
  | 0 => st
  | k + 1 => checkAutomations (checkRepeatedly k st currentWeather now) currentWeather now

/-! Section: App.jsx, the dashboard. -/

/-- The state of the Dashboard component. `motionTimers` counts the pending `setTimeout`
callbacks that will clear `motionDetected`. -/
structure DashboardState where
  connected : Bool
  lightOn : Bool
  temperature : JVal
  doorLocked : Bool
  motionDetected : Bool
  motionTimers : Nat
  published : List Msg
  deriving Repr, Inhabited

/-- The first `if` of the dashboard message listener (lines 254 to 259). -/
def onHomeMotion (topic : String) (payload : JVal) (st : DashboardState) :
    Except DashboardState DashboardState :=
  if topic == "home/motion" then
    match payload.prop "motion" with
    | .ok (some motion) =>
      if truthy (some motion) then
        .ok { st with motionDetected := true, motionTimers := st.motionTimers + 1 }
      else .ok st
    | .ok none => .ok st
    | .error _ => .error st
  else .ok st

/-- The second `if` of the dashboard message listener (lines 261 to 263). -/
def onHomeTemperature (topic : String) (payload : JVal) (st : DashboardState) :
    Except DashboardState DashboardState :=
  if topic == "home/temperature" then
    match payload.prop "temperature" with
    | .ok (some temperature) => .ok { st with temperature := temperature }
    | .ok none => .ok st
    | .error _ => .error st
  else .ok st

/-- The dashboard message listener (lines 249 to 267), registered once when the component
mounts. `message` is the result of `JSON.parse`. -/
def dashboardMessageHandler (topic : String) (message : Option JVal) (st : DashboardState) :
    DashboardState :=
  match message with
  | none => st
  | some payload =>
    match (onHomeMotion topic payload st).bind fun s1 => onHomeTemperature topic payload s1 with
    | .ok s => s
    | .error s => s

/-- The Dashboard component after mounting without a saved default temperature. -/
def initialDashboard : DashboardState :=
  { connected := false, lightOn := false, temperature := .num 22, doorLocked := true,
    motionDetected := false, motionTimers := 0, published := [] }

/-- The state a `try` block leaves behind, whether it ran to the end or threw. -/
def outcome {σ : Type} (r : Except σ σ) : σ :=
  match r with
  | .ok s => s
  | .error s => s

/-- The second rule of the initial list. -/
def cloudyRule : Automation :=
  { id := 2, name := "Turn on lights when cloudy", condition := "cloudy",
    action := "lightsOn", enabled := true, time := "immediate" }

/-- The function `toggleCamera` (lines 129 to 138). -/
def toggleCamera (st : SecurityState) (now : Nat) : SecurityState :=
  let newState := !st.cameraOn
  let st1 := { st with cameraOn := newState }
  let st2 :=
    if st1.connected then
      { st1 with published := st1.published ++
          [⟨"home/security/camera", .obj [("enabled", .bool newState)]⟩] }
    else st1
  logActivity st.activityLog "system"
    ("Camera " ++ (if newState then "activated" else "deactivated")) now st2

/-- A click on the camera button (lines 282 to 292), shown disabled when the last render found
the client not connected, followed by the render it causes. -/
def cameraButton (st : SecurityState) (now : Nat) : SecurityState :=
  subscriptionEffect st (if !st.shownConnected then st else render (toggleCamera st now))

/-- The alarm armed, then the camera switched on (logged; the alarm flags do not change). -/
def afterCameraState : SecurityState :=
  cameraButton (securityRun connectedStart [.clickArmDisarm 1]) 2

/-! Section: App.jsx, the dashboard commands. -/

/-- The JSON value of a JavaScript number that may be `NaN` (`none`); `JSON.stringify` writes
`NaN` as `null`, and the state value `NaN` is represented by `.null` as well. -/
def numberOrNaN (n : Option Int) : JVal :=
  match n with
  | some k => .num k
  | none => .null

/-- The function `toggleLight` (lines 301 to 311). -/
def toggleLight (st : DashboardState) : DashboardState :=
  if !st.connected then st
  else
    let newState := !st.lightOn
    { st with
      lightOn := newState
      published := st.published ++ [⟨"home/light", .obj [("light", .bool newState)]⟩] }

/-- The function `handleTemperatureChange` (lines 313 to 326); `value` is `e.target.value`, the
value of the temperature slider. -/
def handleTemperatureChange (st : DashboardState) (value : String) : DashboardState :=
  if !st.connected then st
  else
    let newTemp := numberOrNaN (parseInt value.toList)
    { st with
      temperature := newTemp
      published := st.published ++ [⟨"home/temperature", .obj [("temperature", newTemp)]⟩] }

/-- The function `toggleDoorLock` (lines 328 to 338). -/
def toggleDoorLock (st : DashboardState) : DashboardState :=
  if !st.connected then st
  else
    let newState := !st.doorLocked
    { st with
      doorLocked := newState
      published := st.published ++ [⟨"home/door", .obj [("locked", .bool newState)]⟩] }

/-! Section: WeatherIntegration.jsx, the weather state and the weather simulator. -/

/-- The method `String.prototype.startsWith` for a search string of ASCII characters. -/
def startsWith (s : String) (search : String) : Bool :=
  search.toList.isPrefixOf s.toList

/-- The WeatherIntegration component: the `weather` state (`current` and `forecast`) together
with the state of the rule engine. -/
structure WeatherComponent where
  current : JVal
  forecast : JVal
  engine : WeatherState
  deriving Repr, Inhabited

/-- The table `weatherIcons` (lines 67 to 79), icons given by their code points. -/
def weatherIcons : List (String × String) :=
  [ ("sunny", String.mk [Char.ofNat 0x2600, Char.ofNat 0xFE0F]),
    ("partly_cloudy", String.mk [Char.ofNat 0x26C5]),
    ("cloudy", String.mk [Char.ofNat 0x2601, Char.ofNat 0xFE0F]),
    ("rainy", String.mk [Char.ofNat 0x1F327, Char.ofNat 0xFE0F]),
    ("stormy", String.mk [Char.ofNat 0x26C8, Char.ofNat 0xFE0F]),
    ("snowy", String.mk [Char.ofNat 0x2744, Char.ofNat 0xFE0F]),
    ("foggy", String.mk [Char.ofNat 0x1F32B, Char.ofNat 0xFE0F]),
    ("windy", String.mk [Char.ofNat 0x1F4A8]),
    ("cold", String.mk [Char.ofNat 0x1F976]),
    ("hot", String.mk [Char.ofNat 0x1F975]),
    ("unknown", String.mk [Char.ofNat 0x2753]) ]

/-- The question-mark icon used when the table has no entry. -/
def unknownIcon : String := String.mk [Char.ofNat 0x2753]

/-- The expression `weatherIcons[condition] || unknownIcon`. -/
def iconFor (condition : String) : String :=
  match weatherIcons.lookup condition with
  | some icon => icon
  | none => unknownIcon

/-- The component after mounting (lines 5 to 52). -/
def initialWeatherComponent (connected : Bool) : WeatherComponent :=
  { current := .obj [("temp", .num 0), ("condition", .str "unknown"), ("icon", .str unknownIcon),
      ("humidity", .num 0), ("windSpeed", .num 0)]
    forecast := .arr []
    engine := { connected := connected, automations := initialAutomations, automationLog := [],
                published := [] } }

/-- The weather message listener `messageHandler` (lines 107 to 127). `message` is the result
of `JSON.parse`. -/
def weatherMessageHandler (topic : String) (message : Option JVal) (c : WeatherComponent) :
    WeatherComponent :=
  if !startsWith topic "home/weather" then c
  else
    match message with
    | none => c
    | some payload =>
      if topic == "home/weather/current" then { c with current := payload }
      else if topic == "home/weather/forecast" then { c with forecast := payload }
      else c

/-- The latest payload on a topic in a sequence of decoded messages, if any. -/
def lastPayloadOn (topic : String) (msgs : List (String × JVal)) : Option JVal :=
  ((msgs.filter fun m => m.1 == topic).getLast?).map fun m => m.2

/-- What one run of `simulateWeather` reads from its environment: the values of `Math.random()`
(rationals in the unit interval, in the order of the calls) and the formatted dates of the five
forecast days. -/
structure WeatherDraws where
  temp : ℚ
  humidity : ℚ
  windSpeed : ℚ
  forecastTemp : Nat → ℚ
  forecastDate : Nat → String

/-- The condition chosen for a temperature (lines 147 to 153 and 174 to 181). -/
def conditionFor (temp : Int) : String :=
  if temp > 30 then "hot"
  else if temp > 25 then "sunny"
  else if temp > 18 then "partly_cloudy"
  else if temp > 12 then "cloudy"
  else if temp > 5 then "rainy"
  else "cold"

/-- The object `JSON.stringify` writes for a weather reading. -/
def Weather.toJson (w : Weather) : JVal :=
  .obj [("temp", .num w.temp), ("condition", .str w.condition), ("icon", .str w.icon),
    ("humidity", .num w.humidity), ("windSpeed", .num w.windSpeed)]

/-- The forecast entry of day `i` (lines 169 to 189). -/
def forecastEntry (temp : Int) (draws : WeatherDraws) (i : Nat) : JVal :=
  let forecastTemp := temp + ⌊draws.forecastTemp i * 10⌋ - 5
  let forecastCondition := conditionFor forecastTemp
  .obj [("date", .str (draws.forecastDate i)), ("temp", .num forecastTemp),
    ("condition", .str forecastCondition), ("icon", .str (iconFor forecastCondition))]

/-- The reading generated by `simulateWeather` (lines 143 to 166). -/
def simulatedWeather (draws : WeatherDraws) : Weather :=
  let temp := ⌊draws.temp * 36⌋
  let condition := conditionFor temp
  { temp := temp, condition := condition, icon := iconFor condition,
    humidity := ⌊draws.humidity * 100⌋, windSpeed := ⌊draws.windSpeed * 30⌋ }

/-- One tick of the weather simulator, the function `simulateWeather` (lines 142 to 205):
generate the reading and the forecast, publish them when the client is connected, store them
and check the automations. -/
def simulateWeather (c : WeatherComponent) (draws : WeatherDraws) (now : Clock) :
    WeatherComponent :=
  let currentWeather := simulatedWeather draws
  let forecast := JVal.arr ((List.range 5).map (forecastEntry currentWeather.temp draws))
  let published :=
    if c.engine.connected then
      c.engine.published ++
        [⟨"home/weather/current", currentWeather.toJson⟩, ⟨"home/weather/forecast", forecast⟩]
    else c.engine.published
  { current := currentWeather.toJson
    forecast := forecast
    engine := checkAutomations { c.engine with published := published } currentWeather now }

/-- The number of messages on a topic in a publish trace. -/
def countTopic (topic : String) (msgs : List Msg) : Nat :=
  (msgs.filter fun m => m.topic == topic).length

/-! Section: mqtt-publisher.js, the standalone publisher. -/

/-- One run of the `setInterval` callback of the standalone publisher (lines 7 to 17): the two
publishes appended to the trace. The draws are the two values of `Math.random()`. -/
def publisherTick (tempDraw motionDraw : ℚ) (published : List Msg) : List Msg :=
  let temp := ⌊tempDraw * 6⌋ + 20
  let afterTemperature := published ++ [⟨"home/temperature", .obj [("temperature", .num temp)]⟩]
  let motion := decide (motionDraw > 0.5)
  afterTemperature ++ [⟨"home/motion", .obj [("motion", .bool motion)]⟩]

/-! Section: EnergyMonitoring.jsx. -/

/-- The state of the EnergyMonitoring component the message listener works on. A device row is
an object, given by its fields; `currentUsage` may be `undefined` (`none`). -/
structure EnergyState where
  connected : Bool
  currentUsage : Option JVal
  devices : List (List (String × JVal))
  published : List Msg
  deriving Repr, Inhabited

/-- The initial device table (lines 10 to 15). -/
def initialDevices : List (List (String × JVal)) :=
  [ [("id", .num 1), ("name", .str "Living Room Light"), ("power", .num 0),
     ("connected", .bool true)],
    [("id", .num 2), ("name", .str "Kitchen Appliances"), ("power", .num 0),
     ("connected", .bool true)],
    [("id", .num 3), ("name", .str "Thermostat"), ("power", .num 0), ("connected", .bool true)],
    [("id", .num 4), ("name", .str "Entertainment System"), ("power", .num 0),
     ("connected", .bool false)] ]

/-- The component after mounting. -/
def initialEnergy (connected : Bool) : EnergyState :=
  { connected := connected, currentUsage := some (.num 0), devices := initialDevices,
    published := [] }

/-- Strict equality `a === b` of two property reads. Numbers, strings, booleans, `null` and
`undefined` compare by value; a decoded array or object is never identical to another value. -/
def strictEq : Option JVal → Option JVal → Bool
  | none, none => true
  | some .null, some .null => true
  | some (.bool a), some (.bool b) => a == b
  | some (.num a), some (.num b) => a == b
  | some (.str a), some (.str b) => a == b
  | _, _ => false

/-- The call `payload.devices.find(d => d.id === device.id)` on an array: the first entry whose
id is strictly equal to the id of the device; `Except.error` when an entry is `null`. -/
def findById (deviceId : Option JVal) : List JVal → Except Unit (Option JVal)
  | [] => .ok none
  | d :: rest =>
    match d.prop "id" with
    | .error e => .error e
    | .ok entryId => if strictEq entryId deviceId then .ok (some d) else findById deviceId rest

/-- The own enumerable properties that an object spread copies from a value. -/
def ownFields : JVal → List (String × JVal)
  | .obj fields => fields
  | .arr items => items.enum.map fun iv => (toString iv.1, iv.2)
  | .str s => s.toList.enum.map fun ic => (toString ic.1, JVal.str ic.2.toString)
  | _ => []

/-- The object spread of two objects: the keys of `base` in their order with the values that
`update` gives them, then the keys only `update` has. -/
def spread (base update : List (String × JVal)) : List (String × JVal) :=
  (base.map fun kv => (kv.1, (lookupField kv.1 update).getD kv.2))
    ++ update.filter fun kv => (lookupField kv.1 base).isNone

/-- The callback of `prevDevices.map` (lines 36 to 39) for one device row. `Except.error` is the
`TypeError` of calling `find` on a value that is not an array, or of reading the id of a `null`
entry. -/
def mergeDevice (payloadDevices : JVal) (device : List (String × JVal)) :
    Except Unit (List (String × JVal)) :=
  match payloadDevices with
  | .arr items =>
    match findById (lookupField "id" device) items with
    | .error e => .error e
    | .ok (some updatedDevice) =>
      if truthy (some updatedDevice) then .ok (spread device (ownFields updatedDevice))
      else .ok device
    | .ok none => .ok device
  | _ => .error ()

/-- The energy message listener `messageHandler` (lines 24 to 46). `message` is the result of
`JSON.parse`. An `Except.error` is an exception thrown by the `setDevices` updater, which React
runs outside the `try` block of the listener. -/
def energyMessageHandler (topic : String) (message : Option JVal) (st : EnergyState) :
    Except Unit EnergyState :=
  if !startsWith topic "home/energy" then .ok st
  else
    match message with
    | none => .ok st
    | some payload =>
      if topic == "home/energy/current" then
        match payload.prop "watts", payload.prop "devices" with
        | .ok watts, .ok (some devices) =>
          let st1 := { st with currentUsage := watts }
          if truthy (some devices) then
            match st1.devices.mapM (mergeDevice devices) with
            | .ok updated => .ok { st1 with devices := updated }
            | .error e => .error e
          else .ok st1
        | .ok watts, .ok none => .ok { st with currentUsage := watts }
        | _, _ => .ok st
      else .ok st

/-- The row a device gets from a list of payload entries that are objects: the spread of the
first entry with its id over the row, or the row itself when no entry has its id. -/
def mergedRow (entries : List (List (String × JVal))) (device : List (String × JVal)) :
    List (String × JVal) :=
  match entries.find? fun e => strictEq (lookupField "id" e) (lookupField "id" device) with
  | some e => spread device e
  | none => device

/-- The function `Math.round`: the nearest integer, halves rounded up. It is exact on the
value of its argument. -/
def jsRound (x : ℚ) : Int := ⌊x + 1 / 2⌋

/-- Rounding to the nearest integer, a tie to the even one. -/
def roundHalfEven (q : ℚ) : Int :=
  let f := ⌊q⌋
  if q - f < 1 / 2 then f
  else if 1 / 2 < q - f then f + 1
  else if f % 2 = 0 then f else f + 1

/-- The exponent `e` of the binade of a binary64 number: `2 ^ e ≤ |x| < 2 ^ (e + 1)`, and the
exponent -1022 of the subnormal numbers for every smaller `x`. -/
def binade (x : ℚ) : Int := max (Int.log 2 |x|) (-1022)

/-- The value of the IEEE 754 binary64 number (a JavaScript number) that an arithmetic operation
with the exact result `x` returns: `x` rounded to the nearest multiple of the spacing
`2 ^ (e - 52)` of its binade, a tie to the even significand. Results of magnitude `2 ^ 1024` or
more, which JavaScript turns into `Infinity`, do not occur in the simulator. -/
def toDouble (x : ℚ) : ℚ :=
  if x = 0 then 0
  else roundHalfEven (x / (2 : ℚ) ^ (binade x - 52)) * (2 : ℚ) ^ (binade x - 52)

/-- The simulated base power for an hour of the day and a value `r` of `Math.random()`
(lines 66 to 78 and 100 to 107), as the binary64 arithmetic of JavaScript computes it: the
product is rounded, then the sum is rounded. -/
def basePower (hourOfDay : Nat) (r : ℚ) : ℚ :=
  if hourOfDay ≥ 22 ∨ hourOfDay < 6 then toDouble (100 + toDouble (r * 100))
  else if hourOfDay ≥ 17 ∧ hourOfDay < 22 then toDouble (300 + toDouble (r * 150))
  else toDouble (200 + toDouble (r * 100))

/-- The array `devicePowers` (lines 113 to 118). -/
def devicePowers (currentPower : Int) : List Int :=
  [ jsRound (currentPower * 0.15), jsRound (currentPower * 0.4),
    jsRound (currentPower * 0.2), jsRound (currentPower * 0.25) ]

/-- The function `calculateSavingsProgress` (lines 175 to 192) of `totalConsumption` and
`savingsGoal`. The arithmetic is exact: the quotient and the product are not rounded to
binary64, so next to a half the value can differ by one from the one JavaScript computes (58
here and 57 there for a consumption of 4.28125 and a goal of 25). -/
def calculateSavingsProgress (totalConsumption savingsGoal : ℚ) : Int :=
  let baseline : ℚ := 5
  let current := totalConsumption
  let targetReduction := baseline * (savingsGoal / 100)
  let targetUsage := baseline - targetReduction
  if current ≤ targetUsage then 100
  else if current ≥ baseline then 0
  else
    let savedAmount := baseline - current
    let progress := (savedAmount / targetReduction) * 100
    jsRound progress

/-- The fields of the `home/energy/current` payload `{watts: 5, devices: [null]}`. -/
def nullDevicePayload : List (String × JVal) :=
  [("watts", .num 5), ("devices", .arr [.null])]

/-- The fields of the `home/energy/current` payload
`{watts: 5, devices: [{id: 1, power: 60}, null]}`. -/
def trailingNullPayload : List (String × JVal) :=
  [("watts", .num 5), ("devices", .arr [.obj [("id", .num 1), ("power", .num 60)], .null])]

/-- Two payload entries: one for device 2 of the initial table, one for an unknown device 9. -/
def sampleEntries : List (List (String × JVal)) :=
  [[("id", .num 2), ("power", .num 168)], [("id", .num 9), ("power", .num 1)]]

/-- The fields of a `home/energy/current` payload carrying `sampleEntries`. -/
def samplePayload : List (String × JVal) :=
  [("watts", .num 420), ("devices", .arr (sampleEntries.map JVal.obj))]

/-! Section: lemmas on the time parser. -/

theorem digit_ne_colon (a : Nat) (ha : a < 10) : Char.ofNat (48 + a) ≠ ':' := by
  interval_cases a <;> decide

theorem parseInt_two_digits (a b : Nat) (ha : a < 10) (hb : b < 10) :
    parseInt [Char.ofNat (48 + a), Char.ofNat (48 + b)] = some ((10 * a + b : Nat) : Int) := by
  interval_cases a <;> interval_cases b <;> rfl

theorem splitOnChar_hhmm (a b c d : Nat) (ha : a < 10) (hb : b < 10) (hc : c < 10)
    (hd : d < 10) :
    splitOnChar ':' [Char.ofNat (48 + a), Char.ofNat (48 + b), ':', Char.ofNat (48 + c),
        Char.ofNat (48 + d)]
      = [[Char.ofNat (48 + a), Char.ofNat (48 + b)],
         [Char.ofNat (48 + c), Char.ofNat (48 + d)]] := by
  simp [splitOnChar, digit_ne_colon, ha, hb, hc, hd]

theorem hhmm_ne_immediate (h m : Nat) : (hhmm h m != "immediate") = true := by
  have hne : hhmm h m ≠ "immediate" := by
    intro e
    have hlen := congrArg String.length e
    simp [hhmm] at hlen
    revert hlen; decide
  simpa using hne

theorem parseTimePart_hhmm_hour (h m : Nat) (hh : h < 100) (hm : m < 100) :
    parseTimePart (hhmm h m) 0 = some (h : Int) := by
  have h1 : h / 10 < 10 := by omega
  have h2 : h % 10 < 10 := by omega
  have h3 : m / 10 < 10 := by omega
  have h4 : m % 10 < 10 := by omega
  unfold parseTimePart hhmm
  simp only [String.toList]
  rw [splitOnChar_hhmm _ _ _ _ h1 h2 h3 h4]
  simp only [List.get?]
  rw [parseInt_two_digits _ _ h1 h2]
  congr 1
  have hsum : 10 * (h / 10) + h % 10 = h := by omega
  exact_mod_cast hsum

theorem parseTimePart_hhmm_minute (h m : Nat) (hh : h < 100) (hm : m < 100) :
    parseTimePart (hhmm h m) 1 = some (m : Int) := by
  have h1 : h / 10 < 10 := by omega
  have h2 : h % 10 < 10 := by omega
  have h3 : m / 10 < 10 := by omega
  have h4 : m % 10 < 10 := by omega
  unfold parseTimePart hhmm
  simp only [String.toList]
  rw [splitOnChar_hhmm _ _ _ _ h1 h2 h3 h4]
  simp only [List.get?]
  rw [parseInt_two_digits _ _ h3 h4]
  congr 1
  have hsum : 10 * (m / 10) + m % 10 = m := by omega
  exact_mod_cast hsum

theorem scheduleGate_hhmm (h m nowHour nowMinute : Nat) (hh : h < 100) (hm : m < 100) :
    scheduleGate (hhmm h m) nowHour nowMinute = true ↔
      nowHour = h ∧ |(nowMinute : Int) - (m : Int)| ≤ 5 := by
  unfold scheduleGate
  rw [if_pos (hhmm_ne_immediate h m)]
  simp only [parseTimePart_hhmm_hour h m hh hm, parseTimePart_hhmm_minute h m hh hm,
    hourDiffers, minuteTooFar]
  by_cases e : nowHour = h
  · by_cases f : |(nowMinute : Int) - (m : Int)| ≤ 5
    · simp [e, f]
    · simp [e, f]
  · simp [e]

theorem conditionGate_iff (condition : String) (w : Weather) :
    conditionGate condition w = true ↔
      (condition = "sunny" ∧ (w.condition = "sunny" ∨ w.condition = "hot")) ∨
      (condition = "cloudy" ∧ (w.condition = "cloudy" ∨ w.condition = "partly_cloudy")) ∨
      (condition = "rainy" ∧ w.condition = "rainy") ∨
      (condition = "windy" ∧ w.windSpeed > 20) ∨
      (condition = "cold" ∧ w.temp < 10) ∨
      (condition = "hot" ∧ w.temp > 30) := by
  unfold conditionGate
  by_cases h1 : condition = "sunny"
  · subst h1; simp
  by_cases h2 : condition = "cloudy"
  · subst h2; simp
  by_cases h3 : condition = "rainy"
  · subst h3; simp
  by_cases h4 : condition = "windy"
  · subst h4; simp
  by_cases h5 : condition = "cold"
  · subst h5; simp
  by_cases h6 : condition = "hot"
  · subst h6; simp
  simp [h1, h2, h3, h4, h5, h6]

/-- The `forEach` of `checkAutomations` runs `triggerAutomation` on the firing rules, in order. -/
theorem foldl_checkAutomations (now : Clock) (w : Weather) (l : List Automation)
    (s : WeatherState) :
    l.foldl (fun s automation =>
      if !automation.enabled then s
      else if shouldTrigger automation w now then triggerAutomation s automation now
      else s) s
    = (firingRules l w now).foldl (fun s a => triggerAutomation s a now) s := by
  induction l generalizing s with
  | nil => rfl
  | cons a l ih =>
    simp only [List.foldl_cons, firingRules, List.filter_cons]
    rw [ih]
    cases he : a.enabled <;> cases hc : conditionGate a.condition w <;>
      cases hs : scheduleGate a.time now.hours now.minutes <;>
      simp [shouldTrigger, he, hc, hs, firingRules]

/-! Section: the automation rule engine, claims C1 to C4. -/

/-- C1: for every rule list, weather reading and evaluation time, `checkAutomations` has exactly
the effect of running `triggerAutomation` once on each rule that is enabled, whose condition
matches the weather and whose schedule gate passes, in the order of the rule list; a rule is
among the fired ones exactly when it is in the list and passes the three tests, so a disabled
rule never fires. An enabled immediate rule with condition `hot` fires on
`{temp: 32, condition: "hot"}` and does not fire on `{temp: 20, condition: "sunny"}`. -/
theorem checkAutomations_fires_exactly (st : WeatherState) (w : Weather) (now : Clock) :
    checkAutomations st w now
        = (firingRules st.automations w now).foldl (fun s a => triggerAutomation s a now) st
    ∧ (∀ a, a ∈ firingRules st.automations w now ↔
        (a ∈ st.automations ∧ a.enabled = true ∧ conditionGate a.condition w = true
          ∧ scheduleGate a.time now.hours now.minutes = true))
    ∧ (firingRules st.automations w now).Sublist st.automations
    ∧ (∀ a ∈ st.automations, a.enabled = false → a ∉ firingRules st.automations w now)
    ∧ (∀ (r : Automation) (icon : String) (humidity windSpeed : Int),
        r.enabled = true → r.condition = "hot" → r.time = "immediate" →
        checkAutomations { st with automations := [r] } ⟨32, "hot", icon, humidity, windSpeed⟩ now
            = triggerAutomation { st with automations := [r] } r now
        ∧ checkAutomations { st with automations := [r] } ⟨20, "sunny", icon, humidity, windSpeed⟩ now
            = { st with automations := [r] }) := by
  refine ⟨foldl_checkAutomations now w st.automations st, ?_, ?_, ?_, ?_⟩
  · intro a
    simp [firingRules, List.mem_filter, and_assoc]
  · exact List.filter_sublist _
  · intro a _ hd hmem
    simp [firingRules, List.mem_filter, hd] at hmem
  · intro r icon humidity windSpeed he hc ht
    constructor
    · simp [checkAutomations, shouldTrigger, conditionGate, scheduleGate, he, hc, ht]
    · simp [checkAutomations, shouldTrigger, conditionGate, scheduleGate, he, hc, ht]

/-- Witness for C1: the rule `hotRule` on a reading of 32 degrees, condition `hot`. -/
theorem checkAutomations_fires_exactly_witness :
    (hotRule.enabled = true ∧ hotRule.condition = "hot" ∧ hotRule.time = "immediate")
    ∧ checkAutomations { (⟨true, [], [], []⟩ : WeatherState) with automations := [hotRule] }
          ⟨32, "hot", "", 40, 3⟩ ⟨10, 30, 0, ""⟩
        = triggerAutomation { (⟨true, [], [], []⟩ : WeatherState) with automations := [hotRule] }
            hotRule ⟨10, 30, 0, ""⟩ :=
  ⟨by decide,
   ((checkAutomations_fires_exactly ⟨true, [], [], []⟩ ⟨0, "", "", 0, 0⟩ ⟨10, 30, 0, ""⟩).2.2.2.2
      hotRule "" 40 3 (by decide) (by decide) (by decide)).1⟩

/-- C2: the condition gate of `checkAutomations` is true exactly when the rule condition is
`sunny` and the weather condition is sunny or hot, or `cloudy` and the weather condition is
cloudy or partly_cloudy, or `rainy` and the weather condition is rainy, or `windy` and the
wind speed exceeds 20, or `cold` and the temperature is below 10, or `hot` and the temperature
exceeds 30; for any other rule condition it is false. -/
theorem conditionGate_spec (condition : String) (w : Weather) :
    (conditionGate condition w = true ↔
      (condition = "sunny" ∧ (w.condition = "sunny" ∨ w.condition = "hot")) ∨
      (condition = "cloudy" ∧ (w.condition = "cloudy" ∨ w.condition = "partly_cloudy")) ∨
      (condition = "rainy" ∧ w.condition = "rainy") ∨
      (condition = "windy" ∧ w.windSpeed > 20) ∨
      (condition = "cold" ∧ w.temp < 10) ∨
      (condition = "hot" ∧ w.temp > 30))
    ∧ (condition ∉ ["sunny", "cloudy", "rainy", "windy", "cold", "hot"] →
        conditionGate condition w = false) := by
  refine ⟨conditionGate_iff condition w, ?_⟩
  intro hne
  simp only [List.mem_cons, List.mem_singleton, not_or, List.not_mem_nil, or_false] at hne
  obtain ⟨h1, h2, h3, h4, h5, h6⟩ := hne
  simp [conditionGate, h1, h2, h3, h4, h5, h6]

/-- Witness for C2: the rule condition `stormy` is none of the six and never matches. -/
theorem conditionGate_spec_witness :
    "stormy" ∉ ["sunny", "cloudy", "rainy", "windy", "cold", "hot"]
    ∧ conditionGate "stormy" ⟨35, "hot", "", 10, 25⟩ = false :=
  ⟨by decide, (conditionGate_spec "stormy" ⟨35, "hot", "", 10, 25⟩).2 (by decide)⟩

/-- C3: the schedule gate always passes for a rule with time `immediate`; for a rule scheduled
at hour `h`, minute `m` (the time input value `hhmm h m`) it passes if and only if the hour of
the evaluation time equals `h` and the absolute difference of the minutes is at most 5. There
is no wraparound: a rule at 09:00 passes at 09:03 and fails at 09:07 and at 10:00, and a rule at
00:02 fails at 23:59. -/
theorem scheduleGate_spec :
    (∀ nowHour nowMinute : Nat, scheduleGate "immediate" nowHour nowMinute = true)
    ∧ (∀ h m nowHour nowMinute : Nat, h < 24 → m < 60 →
        (scheduleGate (hhmm h m) nowHour nowMinute = true ↔
          nowHour = h ∧ |(nowMinute : Int) - (m : Int)| ≤ 5))
    ∧ scheduleGate "09:00" 9 3 = true
    ∧ scheduleGate "09:00" 9 7 = false
    ∧ scheduleGate "09:00" 10 0 = false
    ∧ scheduleGate "00:02" 23 59 = false := by
  refine ⟨?_, ?_, by decide, by decide, by decide, by decide⟩
  · intro nowHour nowMinute
    simp [scheduleGate]
  · intro h m nowHour nowMinute hh hm
    exact scheduleGate_hhmm h m nowHour nowMinute (by omega) (by omega)

/-- Witness for C3: the rule scheduled at 09:00, evaluated at 09:03. -/
theorem scheduleGate_spec_witness :
    (9 < 24 ∧ 0 < 60)
    ∧ (scheduleGate (hhmm 9 0) 9 3 = true ↔
        9 = 9 ∧ |((3 : Nat) : Int) - ((0 : Nat) : Int)| ≤ 5) :=
  ⟨by decide, scheduleGate_spec.2.1 9 0 9 3 (by decide) (by decide)⟩

/-- C4, counterexample: with the client not connected, `triggerAutomation` on a rule with action
`lightsOn` publishes nothing, so it is not true that every firing publishes one command. -/
theorem triggerAutomation_publish_counterexample :
    ¬ (∀ (st : WeatherState) (a : Automation) (now : Clock), a.action = "lightsOn" →
        (triggerAutomation st a now).published
          = st.published ++ [⟨"home/light", .obj [("light", .bool true)]⟩]) := by
  intro h
  have h1 := h ⟨false, [hotRule], [], []⟩ hotRule ⟨10, 30, 0, ""⟩ rfl
  simp [triggerAutomation] at h1

/-- C4, amended: when the client is connected, `triggerAutomation` publishes exactly one command
message determined by the action of the rule (`lightsOn` gives `{light: true}` on `home/light`,
`lightsOff` gives `{light: false}` on `home/light`, `closeBlinds` gives `{closed: true}` on
`home/blinds`, `openBlinds` gives `{closed: false}` on `home/blinds`, `increaseTemp` gives
`{temperature: 24}` on `home/temperature`, `decreaseTemp` gives `{temperature: 20}` on
`home/temperature`); when the client is not connected it publishes nothing. In both cases it
puts one new entry at the head of the automation log, which keeps its first 5 entries, and it
leaves the rule list unchanged. -/
theorem triggerAutomation_spec (st : WeatherState) (a : Automation) (now : Clock) :
    (st.connected = true →
      (a.action = "lightsOn" → (triggerAutomation st a now).published
          = st.published ++ [⟨"home/light", .obj [("light", .bool true)]⟩])
      ∧ (a.action = "lightsOff" → (triggerAutomation st a now).published
          = st.published ++ [⟨"home/light", .obj [("light", .bool false)]⟩])
      ∧ (a.action = "closeBlinds" → (triggerAutomation st a now).published
          = st.published ++ [⟨"home/blinds", .obj [("closed", .bool true)]⟩])
      ∧ (a.action = "openBlinds" → (triggerAutomation st a now).published
          = st.published ++ [⟨"home/blinds", .obj [("closed", .bool false)]⟩])
      ∧ (a.action = "increaseTemp" → (triggerAutomation st a now).published
          = st.published ++ [⟨"home/temperature", .obj [("temperature", .num 24)]⟩])
      ∧ (a.action = "decreaseTemp" → (triggerAutomation st a now).published
          = st.published ++ [⟨"home/temperature", .obj [("temperature", .num 20)]⟩]))
    ∧ (st.connected = false → (triggerAutomation st a now).published = st.published)
    ∧ (triggerAutomation st a now).automationLog
        = ({ id := now.ms, time := now.timeString, message := "Triggered: " ++ a.name }
            :: st.automationLog).take 5
    ∧ (triggerAutomation st a now).automations = st.automations
    ∧ (triggerAutomation st a now).connected = st.connected := by
  refine ⟨?_, ?_, rfl, rfl, rfl⟩
  · intro hc
    refine ⟨?_, ?_, ?_, ?_, ?_, ?_⟩ <;> intro ha <;>
      simp [triggerAutomation, actionCommand, hc, ha]
  · intro hc
    simp [triggerAutomation, hc]

/-- Witness for C4: `hotRule` (action `lightsOn`) fired with a connected client. -/
theorem triggerAutomation_spec_witness :
    ((⟨true, [hotRule], [], []⟩ : WeatherState).connected = true ∧ hotRule.action = "lightsOn")
    ∧ (triggerAutomation ⟨true, [hotRule], [], []⟩ hotRule ⟨10, 30, 0, ""⟩).published
        = (⟨true, [hotRule], [], []⟩ : WeatherState).published
            ++ [⟨"home/light", .obj [("light", .bool true)]⟩] :=
  ⟨⟨rfl, rfl⟩,
   ((triggerAutomation_spec ⟨true, [hotRule], [], []⟩ hotRule ⟨10, 30, 0, ""⟩).1 rfl).1 rfl⟩


/-! Section: the alarm state machine, claims C5 to C10. -/

/-- One listener run on a motion message whose `detected` field is truthy: the listener logs the
motion and, when the values it closed over say armed and not triggered, sets `alarmTriggered`
and publishes the trigger message. -/
theorem securityMessageHandler_motion (l : Listener) (now : Nat)
    (fields : List (String × JVal)) (st : SecurityState)
    (hd : truthy (lookupField "detected" fields) = true) :
    securityMessageHandler l now "home/security/motion" (some (.obj fields)) st
      = if l.alarmArmed && !l.alarmTriggered then
          { logActivity l.activityLog "motion"
              ("Motion detected at " ++ orElseStr (lookupField "location" fields) "unknown location")
              now st with
            alarmTriggered := true
            published := st.published ++ [triggeredMsg] }
        else
          logActivity l.activityLog "motion"
            ("Motion detected at " ++ orElseStr (lookupField "location" fields) "unknown location")
            now st := by
  have e1 : ("home/security/motion" == "home/security/door") = false := by decide
  have e2 : ("home/security/motion" == "home/security/alarm") = false := by decide
  cases ha : l.alarmArmed <;> cases ht : l.alarmTriggered <;>
    simp [securityMessageHandler, onMotion, onDoor, onAlarm, JVal.prop, hd, e1, e2, ha, ht,
      Except.bind, logActivity]

/-- The trigger messages published for one motion message: one for every registered listener
that closed over armed and not triggered. -/
theorem emit_motion_published (now : Nat) (fields : List (String × JVal))
    (hd : truthy (lookupField "detected" fields) = true) (ls : List Listener)
    (st : SecurityState) :
    (ls.foldl (fun s l =>
        securityMessageHandler l now "home/security/motion" (some (.obj fields)) s) st).published
      = st.published ++
          List.replicate (ls.countP fun l => l.alarmArmed && !l.alarmTriggered) triggeredMsg := by
  induction ls generalizing st with
  | nil => simp
  | cons l ls ih =>
    rw [List.foldl_cons, ih, securityMessageHandler_motion l now fields st hd]
    by_cases hl : (l.alarmArmed && !l.alarmTriggered) = true
    · rw [if_pos hl]
      simp [List.countP_cons, hl, logActivity, List.replicate_succ]
    · rw [if_neg hl]
      simp [List.countP_cons, hl, logActivity]

/-- The trigger messages one delivered motion message makes the component publish: one for
every listener on the client that closed over armed and not triggered. -/
theorem emitMessage_motion_published (now : Nat) (fields : List (String × JVal))
    (hd : truthy (lookupField "detected" fields) = true) (st : SecurityState) :
    (emitMessage now "home/security/motion" (some (.obj fields)) st).published
      = st.published ++
          List.replicate (st.listeners.countP fun l => l.alarmArmed && !l.alarmTriggered)
            triggeredMsg :=
  emit_motion_published now fields hd st.listeners st

/-- C5, evaluated at the failing input. After arm, a motion message and reset the alarm is in the
Armed state (armed, not triggered); the listeners registered at arming and at reset both closed
over armed and not triggered and are both still registered, so the next motion message, and
likewise a door message with action `opened`, moves the alarm to Triggered but publishes the
trigger message twice. -/
theorem armed_state_publishes_trigger_twice :
    afterResetState.alarmArmed = true
    ∧ afterResetState.alarmTriggered = false
    ∧ (securityStep afterResetState (motionDetected 4)).alarmArmed = true
    ∧ (securityStep afterResetState (motionDetected 4)).alarmTriggered = true
    ∧ (securityStep afterResetState (motionDetected 4)).published
        = afterResetState.published ++ [triggeredMsg, triggeredMsg]
    ∧ (securityStep afterResetState (doorOpened 4)).published
        = afterResetState.published ++ [triggeredMsg, triggeredMsg] :=
  ⟨rfl, rfl, rfl, rfl, rfl, rfl⟩

/-- C6, evaluated at the failing input. After arm and disarm the alarm is Disarmed, but the
listener registered at arming is still on the client and closed over armed; the next motion
message makes it set `alarmTriggered` and publish the trigger message, so the reached state is
triggered and not armed. -/
theorem disarmed_state_gets_triggered :
    afterDisarmState.alarmArmed = false
    ∧ afterDisarmState.alarmTriggered = false
    ∧ (securityStep afterDisarmState (motionDetected 3)).alarmArmed = false
    ∧ (securityStep afterDisarmState (motionDetected 3)).alarmTriggered = true
    ∧ (securityStep afterDisarmState (motionDetected 3)).published
        = afterDisarmState.published ++ [triggeredMsg] :=
  ⟨rfl, rfl, rfl, rfl, rfl⟩

/-- C7: when armed and triggered are both true, a click on the Arm/Disarm button (the disarm
command, whose handler is `toggleAlarm`) is rejected: the button is disabled, so the whole
state, hence armed, triggered and the published messages, is unchanged, also after the render. -/
theorem disarm_while_triggered_rejected (st : SecurityState) (now : Nat)
    (ha : st.alarmArmed = true) (ht : st.alarmTriggered = true) :
    armDisarmButton st now = st
    ∧ securityStep st (.clickArmDisarm now) = st
    ∧ (securityStep st (.clickArmDisarm now)).alarmArmed = true
    ∧ (securityStep st (.clickArmDisarm now)).alarmTriggered = true
    ∧ (securityStep st (.clickArmDisarm now)).published = st.published := by
  have h1 : armDisarmButton st now = st := by
    simp [armDisarmButton, armDisarmDisabled, ht]
  have h2 : securityStep st (.clickArmDisarm now) = st := by
    simp [securityStep, armDisarmDisabled, ht, subscriptionEffect]
  refine ⟨h1, h2, ?_, ?_, ?_⟩
  · rw [h2]; exact ha
  · rw [h2]; exact ht
  · rw [h2]

/-- Witness for C7: the state reached by arming and a motion message is armed and triggered. -/
theorem disarm_while_triggered_rejected_witness :
    (afterTriggerState.alarmArmed = true ∧ afterTriggerState.alarmTriggered = true)
    ∧ armDisarmButton afterTriggerState 9 = afterTriggerState :=
  ⟨⟨rfl, rfl⟩, (disarm_while_triggered_rejected afterTriggerState 9 rfl rfl).1⟩

/-- C8, counterexample: in the triggered state reached by arming and a motion message, after
the client lost its connection, `resetAlarm` publishes nothing. -/
theorem resetAlarm_publish_counterexample :
    ¬ (∀ (st : SecurityState) (now : Nat), st.alarmTriggered = true →
        (resetAlarm st now).published = st.published ++ [resetMsg]) := by
  intro h
  have h1 := h triggeredOfflineState 3 rfl
  have hc : triggeredOfflineState.connected = false := rfl
  simp [resetAlarm, logActivity, hc] at h1

/-- C8, amended: `resetAlarm` sets triggered to false and leaves armed unchanged for every value
of armed, so from Triggered (armed and triggered) it returns to Armed, not Disarmed; when
the client is connected it publishes `{reset: true, triggered: false}` on `home/security/alarm`
and when the client is not connected it publishes nothing. -/
theorem resetAlarm_spec (st : SecurityState) (now : Nat) :
    (resetAlarm st now).alarmTriggered = false
    ∧ (resetAlarm st now).alarmArmed = st.alarmArmed
    ∧ (st.connected = true → (resetAlarm st now).published = st.published ++ [resetMsg])
    ∧ (st.connected = false → (resetAlarm st now).published = st.published)
    ∧ (st.alarmTriggered = true → resetButton st now = resetAlarm st now)
    ∧ (st.alarmTriggered = true →
        (securityStep st (.clickReset now)).alarmTriggered = false
        ∧ (securityStep st (.clickReset now)).alarmArmed = st.alarmArmed) := by
  refine ⟨?_, ?_, ?_, ?_, ?_, ?_⟩
  · cases hc : st.connected <;> simp [resetAlarm, logActivity, hc]
  · cases hc : st.connected <;> simp [resetAlarm, logActivity, hc]
  · intro hc; simp [resetAlarm, logActivity, hc, resetMsg]
  · intro hc; simp [resetAlarm, logActivity, hc]
  · intro ht; simp [resetButton, ht]
  · intro ht
    cases hc : st.connected <;>
      simp [securityStep, resetButton, ht, resetAlarm, logActivity, hc, subscriptionEffect,
        render]

/-- Witness for C8: reset in the state reached by arming and a motion message. -/
theorem resetAlarm_spec_witness :
    (afterTriggerState.connected = true ∧ afterTriggerState.alarmTriggered = true)
    ∧ (resetAlarm afterTriggerState 3).published = afterTriggerState.published ++ [resetMsg]
    ∧ resetButton afterTriggerState 3 = resetAlarm afterTriggerState 3 :=
  ⟨⟨rfl, rfl⟩, (resetAlarm_spec afterTriggerState 3).2.2.1 rfl,
    (resetAlarm_spec afterTriggerState 3).2.2.2.2.1 rfl⟩

/-- C9, evaluated at the failing input. After arm and one motion message the alarm is
triggered and one trigger message has been published. The listener registered at arming closed
over not triggered and is still registered, so a second motion message publishes the trigger
message again: two trigger messages between the arm command and the next reset. The flags stay
as they are, and the activity log gets a second entry of type `motion`. -/
theorem triggered_state_publishes_trigger_again :
    afterTriggerState.alarmArmed = true
    ∧ afterTriggerState.alarmTriggered = true
    ∧ afterTriggerState.published = [armedMsg true, triggeredMsg]
    ∧ (securityStep afterTriggerState (motionDetected 3)).alarmArmed = true
    ∧ (securityStep afterTriggerState (motionDetected 3)).alarmTriggered = true
    ∧ (securityStep afterTriggerState (motionDetected 3)).published
        = [armedMsg true, triggeredMsg, triggeredMsg]
    ∧ (securityStep afterTriggerState (doorOpened 3)).published
        = [armedMsg true, triggeredMsg, triggeredMsg]
    ∧ (securityStep afterTriggerState (motionDetected 3)).activityLog.map (fun e => e.type)
        = ["motion", "motion", "system", "system"] :=
  ⟨rfl, rfl, rfl, rfl, rfl, rfl, rfl, rfl⟩

/-- C10, counterexample: after the component was mounted, the client connected and the
connection was lost, the alarm is disarmed and the page, not rendered since, still shows the
Arm/Disarm button enabled. Its click runs `toggleAlarm`, which arms the alarm and publishes
nothing: arming from the Disarmed state does not always publish the arming message. -/
theorem toggleAlarm_publish_counterexample :
    disarmedOfflineState.alarmArmed = false
    ∧ disarmedOfflineState.alarmTriggered = false
    ∧ armDisarmDisabled disarmedOfflineState = false
    ∧ armDisarmButton disarmedOfflineState 1 = toggleAlarm disarmedOfflineState 1
    ∧ (toggleAlarm disarmedOfflineState 1).alarmArmed = true
    ∧ (toggleAlarm disarmedOfflineState 1).published = []
    ∧ (securityStep disarmedOfflineState (.clickArmDisarm 1)).alarmArmed = true
    ∧ (securityStep disarmedOfflineState (.clickArmDisarm 1)).published = []
    ∧ ¬ (∀ (st : SecurityState) (now : Nat), st.alarmArmed = false → st.alarmTriggered = false →
        armDisarmDisabled st = false →
        (toggleAlarm st now).alarmArmed = true ∧ (toggleAlarm st now).alarmTriggered = false
        ∧ (toggleAlarm st now).published = st.published ++ [armedMsg true]) := by
  refine ⟨rfl, rfl, rfl, rfl, rfl, rfl, rfl, rfl, ?_⟩
  intro h
  have h1 := (h disarmedOfflineState 1 rfl rfl rfl).2.2
  have hp : (toggleAlarm disarmedOfflineState 1).published = [] := rfl
  have hq : disarmedOfflineState.published = [] := rfl
  rw [hp, hq] at h1
  simp at h1

/-- C10, amended: `toggleAlarm` with armed false yields armed true and triggered false; when the
client is connected at the time of the call it publishes `{armed: true, triggered: false}` on
`home/security/alarm`, and when the client is not connected it publishes nothing. A click on the
Arm/Disarm button that the last render left enabled runs `toggleAlarm`, and after the render
that follows the alarm is armed, not triggered, and the published messages are those of
`toggleAlarm`. -/
theorem toggleAlarm_arm_spec (st : SecurityState) (now : Nat) (ha : st.alarmArmed = false) :
    (toggleAlarm st now).alarmArmed = true
    ∧ (toggleAlarm st now).alarmTriggered = false
    ∧ (st.connected = true → (toggleAlarm st now).published = st.published ++ [armedMsg true])
    ∧ (st.connected = false → (toggleAlarm st now).published = st.published)
    ∧ (armDisarmDisabled st = false → armDisarmButton st now = toggleAlarm st now)
    ∧ (armDisarmDisabled st = false →
        (securityStep st (.clickArmDisarm now)).alarmArmed = true
        ∧ (securityStep st (.clickArmDisarm now)).alarmTriggered = false
        ∧ (securityStep st (.clickArmDisarm now)).published = (toggleAlarm st now).published) := by
  refine ⟨?_, ?_, ?_, ?_, ?_, ?_⟩
  · cases hc : st.connected <;> simp [toggleAlarm, logActivity, hc, ha]
  · cases hc : st.connected <;> simp [toggleAlarm, logActivity, hc]
  · intro hc; simp [toggleAlarm, logActivity, hc, ha, armedMsg]
  · intro hc; simp [toggleAlarm, logActivity, hc]
  · intro hd; simp [armDisarmButton, hd]
  · intro hd
    cases hc : st.connected <;>
      simp [securityStep, hd, armDisarmButton, subscriptionEffect, render, toggleAlarm,
        logActivity, hc, ha]

/-- Witness for C10: arming on the mounted component once the client is connected. -/
theorem toggleAlarm_arm_spec_witness :
    (connectedStart.alarmArmed = false ∧ connectedStart.connected = true
      ∧ armDisarmDisabled connectedStart = false)
    ∧ (toggleAlarm connectedStart 1).alarmArmed = true
    ∧ (toggleAlarm connectedStart 1).published = connectedStart.published ++ [armedMsg true]
    ∧ armDisarmButton connectedStart 1 = toggleAlarm connectedStart 1 :=
  ⟨⟨rfl, rfl, rfl⟩, (toggleAlarm_arm_spec connectedStart 1 rfl).1,
    (toggleAlarm_arm_spec connectedStart 1 rfl).2.2.1 rfl,
    (toggleAlarm_arm_spec connectedStart 1 rfl).2.2.2.2.1 rfl⟩


/-! Section: the log buffers, claims C11 to C14. -/

/-- The log `logActivity` writes never has more than 50 entries. -/
theorem logActivity_length_le (captured : List ActivityEntry) (type message : String)
    (now : Nat) (st : SecurityState) :
    (logActivity captured type message now st).activityLog.length ≤ 50 := by
  simp [logActivity, List.length_take]

theorem onMotion_log_le (l : Listener) (now : Nat) (topic : String) (payload : JVal)
    (st : SecurityState) (h : st.activityLog.length ≤ 50) :
    (outcome (onMotion l now topic payload st)).activityLog.length ≤ 50 := by
  unfold onMotion
  by_cases ht : (topic == "home/security/motion") = true
  · rw [if_pos ht]
    cases h1 : payload.prop "detected" <;> cases h2 : payload.prop "location" <;>
      simp only [outcome] <;> try exact h
    split_ifs <;> simp [logActivity, List.length_take, h]
  · rw [if_neg ht]; exact h

theorem onDoor_log_le (l : Listener) (now : Nat) (topic : String) (payload : JVal)
    (st : SecurityState) (h : st.activityLog.length ≤ 50) :
    (outcome (onDoor l now topic payload st)).activityLog.length ≤ 50 := by
  unfold onDoor
  by_cases ht : (topic == "home/security/door") = true
  · rw [if_pos ht]
    cases h1 : payload.prop "action" <;> cases h2 : payload.prop "location" <;>
      simp only [outcome] <;> try exact h
    split_ifs <;> simp [logActivity, List.length_take, h]
  · rw [if_neg ht]; exact h

theorem onAlarm_log_le (topic : String) (payload : JVal)
    (st : SecurityState) (h : st.activityLog.length ≤ 50) :
    (outcome (onAlarm topic payload st)).activityLog.length ≤ 50 := by
  unfold onAlarm
  by_cases ht : (topic == "home/security/alarm") = true
  · rw [if_pos ht]
    cases h1 : payload.prop "reset" <;> simp only [outcome] <;> try exact h
    split_ifs <;> simp [h]
  · rw [if_neg ht]; exact h

/-- One listener run keeps the activity log within 50 entries. -/
theorem securityMessageHandler_log_le (l : Listener) (now : Nat) (topic : String)
    (message : Option JVal) (st : SecurityState) (h : st.activityLog.length ≤ 50) :
    (securityMessageHandler l now topic message st).activityLog.length ≤ 50 := by
  cases message with
  | none => exact h
  | some payload =>
    have hm := onMotion_log_le l now topic payload st h
    simp only [securityMessageHandler]
    cases e1 : onMotion l now topic payload st with
    | error s => rw [e1] at hm; simpa [Except.bind, outcome] using hm
    | ok s1 =>
      rw [e1] at hm
      have hd := onDoor_log_le l now topic payload s1 (by simpa [outcome] using hm)
      cases e2 : onDoor l now topic payload s1 with
      | error s => rw [e2] at hd; simpa [Except.bind, outcome, e2] using hd
      | ok s2 =>
        rw [e2] at hd
        have ha := onAlarm_log_le topic payload s2 (by simpa [outcome] using hd)
        cases e3 : onAlarm topic payload s2 with
        | error s => rw [e3] at ha; simpa [Except.bind, outcome, e2, e3] using ha
        | ok s3 => rw [e3] at ha; simpa [Except.bind, outcome, e2, e3] using ha

/-- Delivering a message keeps the activity log within 50 entries. -/
theorem emitMessage_log_le (now : Nat) (topic : String) (message : Option JVal)
    (ls : List Listener) (st : SecurityState) (h : st.activityLog.length ≤ 50) :
    (ls.foldl (fun s l => securityMessageHandler l now topic message s) st).activityLog.length
      ≤ 50 := by
  induction ls generalizing st with
  | nil => exact h
  | cons l ls ih =>
    exact ih _ (securityMessageHandler_log_le l now topic message st h)

/-- Every event keeps the activity log within 50 entries. -/
theorem securityStep_log_le (st : SecurityState) (ev : SecurityEvent)
    (h : st.activityLog.length ≤ 50) : (securityStep st ev).activityLog.length ≤ 50 := by
  have key : ∀ post : SecurityState, post.activityLog.length ≤ 50 →
      (subscriptionEffect st post).activityLog.length ≤ 50 := by
    intro post hp
    unfold subscriptionEffect
    split_ifs <;> exact hp
  unfold securityStep
  apply key
  cases ev with
  | clickArmDisarm now =>
    dsimp only
    by_cases hd : armDisarmDisabled st = true
    · rw [if_pos hd]; exact h
    · rw [if_neg hd]
      show (armDisarmButton st now).activityLog.length ≤ 50
      rw [armDisarmButton, if_neg hd]
      exact logActivity_length_le _ _ _ _ _
  | clickReset now =>
    dsimp only
    by_cases ht : st.alarmTriggered = true
    · rw [if_pos ht]
      show (resetButton st now).activityLog.length ≤ 50
      rw [resetButton, if_pos ht]
      exact logActivity_length_le _ _ _ _ _
    · rw [if_neg ht]; exact h
  | message now topic payload =>
    have hm := emitMessage_log_le now topic payload st.listeners st h
    simp only [render]
    split_ifs
    · exact hm
    · exact hm
  | connect =>
    simp only [render]
    split_ifs <;> exact h
  | connectionLost => exact h
  | connectionError message =>
    simp only [render]
    split_ifs <;> exact h
  | parentRender => exact h

/-- C11: for every log of at most 50 entries and every new entry, `logActivity` yields a log of
length min(old length + 1, 50) whose first entry is the new one and whose remaining entries are
the previous log in the same order, all of it when the log had fewer than 50 entries and all but
its oldest (last) entry when the log was full. The activity log never holds more than 50 entries:
every event of the component keeps a log of at most 50 entries within 50. -/
theorem logActivity_bounded (captured : List ActivityEntry) (type message : String) (now : Nat)
    (st : SecurityState) (hcap : captured.length ≤ 50) :
    (logActivity captured type message now st).activityLog.length = min (captured.length + 1) 50
    ∧ (logActivity captured type message now st).activityLog.head?
        = some { id := some now, type := type, timestamp := (now : Int), message := message }
    ∧ (captured.length < 50 →
        (logActivity captured type message now st).activityLog.tail = captured)
    ∧ (captured.length = 50 →
        (logActivity captured type message now st).activityLog.tail = captured.dropLast)
    ∧ (logActivity captured type message now st).activityLog.length ≤ 50
    ∧ (∀ (s : SecurityState) (ev : SecurityEvent), s.activityLog.length ≤ 50 →
        (securityStep s ev).activityLog.length ≤ 50) := by
  refine ⟨?_, ?_, ?_, ?_, logActivity_length_le _ _ _ _ _, securityStep_log_le⟩
  · simp only [logActivity, List.length_take, List.length_cons]
    omega
  · simp [logActivity]
  · intro hlt
    simp only [logActivity, List.take_succ_cons, List.tail_cons]
    exact List.take_of_length_le (by omega)
  · intro heq
    simp only [logActivity, List.take_succ_cons, List.tail_cons]
    rw [List.dropLast_eq_take, heq]

/-- Witness for C11: logging on the state reached by arming, whose log has two entries. -/
theorem logActivity_bounded_witness :
    afterTriggerState.activityLog.length ≤ 50
    ∧ (logActivity afterTriggerState.activityLog "system" "Alarm reset" 7
        afterTriggerState).activityLog.length = min (afterTriggerState.activityLog.length + 1) 50 :=
  ⟨by decide,
   (logActivity_bounded afterTriggerState.activityLog "system" "Alarm reset" 7
      afterTriggerState (by decide)).1⟩

/-- Truncating the older part of a log first does not change the truncated log. -/
theorem take_append_take {α : Type} (n : Nat) (xs ys : List α) :
    (xs ++ ys.take n).take n = (xs ++ ys).take n := by
  rw [List.take_append_eq_append_take, List.take_append_eq_append_take, List.take_take]
  congr 2
  omega

/-- The automation log after a series of firings: the entries of the firings, latest first, in
front of the earlier log, cut to 5. -/
theorem automationLog_after_firings (firings : List (Automation × Clock)) (st : WeatherState)
    (h : st.automationLog.length ≤ 5) :
    (firings.foldl (fun s f => triggerAutomation s f.1 f.2) st).automationLog
      = ((firings.reverse.map fun f => firingEntry f.1 f.2) ++ st.automationLog).take 5 := by
  induction firings generalizing st with
  | nil => simpa using (List.take_of_length_le h).symm
  | cons f rest ih =>
    rw [List.foldl_cons, ih _ (by simp [triggerAutomation, List.length_take])]
    simp only [triggerAutomation, List.reverse_cons, List.map_append, List.map_cons, List.map_nil,
      List.append_assoc, List.singleton_append]
    exact take_append_take 5 _ _

/-- C12: the automation log never holds more than 5 entries and is most-recent-first. Starting
from the empty log of a fresh component, after any series of rule firings the log consists of
the entries of the most recent firings, the latest one first, and its length is
min(number of firings, 5). -/
theorem automationLog_bounded (st : WeatherState) (firings : List (Automation × Clock))
    (hempty : st.automationLog = []) :
    (firings.foldl (fun s f => triggerAutomation s f.1 f.2) st).automationLog
        = (firings.reverse.map fun f => firingEntry f.1 f.2).take 5
    ∧ (firings.foldl (fun s f => triggerAutomation s f.1 f.2) st).automationLog.length
        = min firings.length 5
    ∧ (firings.foldl (fun s f => triggerAutomation s f.1 f.2) st).automationLog.length ≤ 5 := by
  have hlog := automationLog_after_firings firings st (by simp [hempty])
  rw [hempty, List.append_nil] at hlog
  refine ⟨hlog, ?_, ?_⟩
  · rw [hlog]; simp [List.length_take, min_comm]
  · rw [hlog]; simp [List.length_take]

/-- Witness for C12: seven firings of `hotRule` on a fresh component leave five entries. -/
theorem automationLog_bounded_witness :
    (⟨true, [hotRule], [], []⟩ : WeatherState).automationLog = []
    ∧ ((List.replicate 7 (hotRule, (⟨10, 30, 0, ""⟩ : Clock))).foldl
          (fun s f => triggerAutomation s f.1 f.2) ⟨true, [hotRule], [], []⟩).automationLog.length
        = min (List.replicate 7 (hotRule, (⟨10, 30, 0, ""⟩ : Clock))).length 5 :=
  ⟨rfl, (automationLog_bounded ⟨true, [hotRule], [], []⟩
      (List.replicate 7 (hotRule, (⟨10, 30, 0, ""⟩ : Clock))) rfl).2.1⟩

/-- The alarm commands each add exactly one entry to a log below its cap: `toggleAlarm` (arm and
disarm) and `resetAlarm` put one new entry in front of the log of the current render. -/
theorem alarm_commands_log_one_entry (st : SecurityState) (now : Nat)
    (h : st.activityLog.length < 50) :
    (toggleAlarm st now).activityLog.length = st.activityLog.length + 1
    ∧ (resetAlarm st now).activityLog.length = st.activityLog.length + 1 := by
  constructor
  · cases hc : st.connected <;>
      simp [toggleAlarm, logActivity, List.length_take, hc] <;> omega
  · cases hc : st.connected <;>
      simp [resetAlarm, logActivity, List.length_take, hc] <;> omega

/-- C13, evaluated at the failing input. After arming, a door message with action `closed`
(or a click on the camera button) is logged without changing the alarm flags: the alarm is Armed
and the log has 3 entries. The listener that handles the next motion message still holds the
`logActivity` of the render at arming, whose log had 2 entries; it trips the alarm and writes
its new entry in front of that older log, so after the Armed to Triggered transition the log
still has 3 entries and the door (or camera) entry is gone. -/
theorem trigger_transition_does_not_grow_log :
    afterDoorClosedState.alarmArmed = true
    ∧ afterDoorClosedState.alarmTriggered = false
    ∧ afterDoorClosedState.activityLog.map (fun e => e.type) = ["door", "system", "system"]
    ∧ (securityStep afterDoorClosedState (motionDetected 3)).alarmTriggered = true
    ∧ (securityStep afterDoorClosedState (motionDetected 3)).activityLog.length
        = afterDoorClosedState.activityLog.length
    ∧ (securityStep afterDoorClosedState (motionDetected 3)).activityLog.map (fun e => e.type)
        = ["motion", "system", "system"]
    ∧ afterCameraState.alarmArmed = true
    ∧ afterCameraState.alarmTriggered = false
    ∧ afterCameraState.activityLog.map (fun e => e.message)
        = ["Camera activated", "Alarm system armed", "Security system initialized"]
    ∧ (securityStep afterCameraState (motionDetected 3)).alarmTriggered = true
    ∧ (securityStep afterCameraState (motionDetected 3)).activityLog.map (fun e => e.message)
        = ["Motion detected at unknown location", "Alarm system armed",
           "Security system initialized"] :=
  ⟨rfl, rfl, rfl, rfl, rfl, rfl, rfl, rfl, by decide, rfl, by decide⟩

/-- C14, counterexample: from the initial state (nothing saved), arming and then a door message
`{action: "opened", location: "Front Door"}` leave two entries of type `alarm` or `system` in
the activity log, not one: the sample entry written at mount and the entry of the arming. -/
theorem arm_then_door_counterexample :
    ¬ (countTypes ["alarm", "system"]
        (securityRun connectedStart [.clickArmDisarm 1, doorMessage "opened" 2]).activityLog = 1) := by
  decide

/-- C14, amended: from the initial security state (nothing saved, so the log holds the sample
entry of type `system`), with the client connected at mount or afterwards, arming the alarm and
then delivering a door message `{action: "opened", location: "Front Door"}` publishes the arming
message and then exactly one `{triggered: true}` message on `home/security/alarm`; afterwards
the activity log holds a `door` entry, the `system` entry of the arming and the sample `system`
entry: exactly one entry of type `door` and exactly two of type `alarm` or `system`. -/
theorem arm_then_door_end_to_end (connectedAtMount : Bool) (t0 t1 t2 : Nat) :
    (securityRun (mountSecurity connectedAtMount none t0)
        [.connect, .clickArmDisarm t1, doorMessage "opened" t2]).published
      = [armedMsg true, triggeredMsg]
    ∧ (securityRun (mountSecurity connectedAtMount none t0)
        [.connect, .clickArmDisarm t1, doorMessage "opened" t2]).activityLog.map (fun e => e.type)
      = ["door", "system", "system"]
    ∧ countTypes ["door"] (securityRun (mountSecurity connectedAtMount none t0)
        [.connect, .clickArmDisarm t1, doorMessage "opened" t2]).activityLog = 1
    ∧ countTypes ["alarm", "system"] (securityRun (mountSecurity connectedAtMount none t0)
        [.connect, .clickArmDisarm t1, doorMessage "opened" t2]).activityLog = 2
    ∧ (securityRun (mountSecurity connectedAtMount none t0)
        [.connect, .clickArmDisarm t1, doorMessage "opened" t2]).alarmTriggered = true := by
  cases connectedAtMount
  · have hlog : (securityRun (mountSecurity false none t0)
        [.connect, .clickArmDisarm t1, doorMessage "opened" t2]).activityLog
        = [⟨some t2, "door", (t2 : Int), "Door opened at Front Door"⟩,
           ⟨some t1, "system", (t1 : Int), "Alarm system armed"⟩,
           ⟨none, "system", (t0 : Int) - 86400000, "Security system initialized"⟩] := rfl
    refine ⟨rfl, ?_, ?_, ?_, rfl⟩
    · rw [hlog]; rfl
    · rw [hlog]; rfl
    · rw [hlog]; rfl
  · have hlog : (securityRun (mountSecurity true none t0)
        [.connect, .clickArmDisarm t1, doorMessage "opened" t2]).activityLog
        = [⟨some t2, "door", (t2 : Int), "Door opened at Front Door"⟩,
           ⟨some t1, "system", (t1 : Int), "Alarm system armed"⟩,
           ⟨none, "system", (t0 : Int) - 86400000, "Security system initialized"⟩] := rfl
    refine ⟨rfl, ?_, ?_, ?_, rfl⟩
    · rw [hlog]; rfl
    · rw [hlog]; rfl
    · rw [hlog]; rfl



/-! Section: editing the rule list, claims C15 to C18. -/

/-- C15: `toggleAutomation` flips the enabled flag of the rule with the given id and changes
nothing else. The list keeps its length and order: the rule at every position keeps its id,
name, condition, action and time, has its enabled flag flipped when its id is the given one and
is unchanged otherwise; the form state is unchanged. An id not in the list leaves everything
unchanged, and toggling the same id twice restores the original list. -/
theorem toggleAutomation_spec (ed : RuleEditor) (id : Nat) :
    (toggleAutomation ed id).automations.length = ed.automations.length
    ∧ (∀ (i : Nat) (a : Automation), ed.automations[i]? = some a →
        ∃ b, (toggleAutomation ed id).automations[i]? = some b
          ∧ b.id = a.id ∧ b.name = a.name ∧ b.condition = a.condition ∧ b.action = a.action
          ∧ b.time = a.time
          ∧ (a.id = id → b.enabled = !a.enabled)
          ∧ (a.id ≠ id → b = a))
    ∧ (toggleAutomation ed id).newAutomation = ed.newAutomation
    ∧ (toggleAutomation ed id).showAddForm = ed.showAddForm
    ∧ ((∀ a ∈ ed.automations, a.id ≠ id) → toggleAutomation ed id = ed)
    ∧ toggleAutomation (toggleAutomation ed id) id = ed := by
  refine ⟨by simp [toggleAutomation], ?_, rfl, rfl, ?_, ?_⟩
  · intro i a hi
    refine ⟨if a.id = id then { a with enabled := !a.enabled } else a, ?_, ?_⟩
    · simp [toggleAutomation, List.getElem?_map, hi]
    · by_cases h : a.id = id <;> simp [h]
  · intro hne
    have hmap : ed.automations.map (fun auto =>
        if auto.id = id then { auto with enabled := !auto.enabled } else auto)
        = ed.automations := by
      conv_rhs => rw [← List.map_id ed.automations]
      apply List.map_congr_left
      intro a ha
      simp [hne a ha]
    cases ed
    simp only [toggleAutomation] at hmap ⊢
    simp [hmap]
  · have hmap : (ed.automations.map (fun auto =>
        if auto.id = id then { auto with enabled := !auto.enabled } else auto)).map (fun auto =>
        if auto.id = id then { auto with enabled := !auto.enabled } else auto)
        = ed.automations := by
      rw [List.map_map]
      conv_rhs => rw [← List.map_id ed.automations]
      apply List.map_congr_left
      intro a _
      by_cases h : a.id = id
      · cases a
        simp_all
      · simp [h]
    cases ed
    simp only [toggleAutomation] at hmap ⊢
    simp [hmap]

/-- Witness for C15: toggling rule 2 of the initial list, which sits at position 1. -/
theorem toggleAutomation_spec_witness :
    initialEditor.automations[1]? = some cloudyRule
    ∧ ∃ b, (toggleAutomation initialEditor 2).automations[1]? = some b
        ∧ b.id = cloudyRule.id ∧ b.name = cloudyRule.name
        ∧ b.condition = cloudyRule.condition ∧ b.action = cloudyRule.action
        ∧ b.time = cloudyRule.time
        ∧ (cloudyRule.id = 2 → b.enabled = !cloudyRule.enabled)
        ∧ (cloudyRule.id ≠ 2 → b = cloudyRule) :=
  ⟨rfl, (toggleAutomation_spec initialEditor 2).2.1 1 cloudyRule rfl⟩

/-- C16: `deleteAutomation` returns the list with exactly the rules carrying the given id
removed and the remaining rules in their original relative order; deleting an id not in the
list leaves everything unchanged, and deleting the same id a second time changes nothing. -/
theorem deleteAutomation_spec (ed : RuleEditor) (id : Nat) :
    (deleteAutomation ed id).automations = ed.automations.filter (fun a => decide (a.id ≠ id))
    ∧ (∀ a, a ∈ (deleteAutomation ed id).automations ↔ (a ∈ ed.automations ∧ a.id ≠ id))
    ∧ (deleteAutomation ed id).automations.Sublist ed.automations
    ∧ (deleteAutomation ed id).newAutomation = ed.newAutomation
    ∧ (deleteAutomation ed id).showAddForm = ed.showAddForm
    ∧ ((∀ a ∈ ed.automations, a.id ≠ id) → deleteAutomation ed id = ed)
    ∧ deleteAutomation (deleteAutomation ed id) id = deleteAutomation ed id := by
  refine ⟨?_, ?_, ?_, rfl, rfl, ?_, ?_⟩
  · simp only [deleteAutomation]
    congr 1
    funext a
    by_cases h : a.id = id <;> simp [h]
  · intro a
    simp [deleteAutomation, List.mem_filter]
  · exact List.filter_sublist _
  · intro hne
    have hf : ed.automations.filter (fun auto => auto.id != id) = ed.automations := by
      rw [List.filter_eq_self]
      intro a ha
      simpa using hne a ha
    cases ed
    simp only [deleteAutomation] at hf ⊢
    simp [hf]
  · simp [deleteAutomation, List.filter_filter]

/-- Witness for C16: deleting the id 9, which no rule of the initial list carries. -/
theorem deleteAutomation_spec_witness :
    (∀ a ∈ initialEditor.automations, a.id ≠ 9) ∧ deleteAutomation initialEditor 9 = initialEditor :=
  ⟨by decide, (deleteAutomation_spec initialEditor 9).2.2.2.2.2.1 (by decide)⟩

/-- C17: `addAutomation` with an empty name is rejected before any update: the rule list and
the form are unchanged. With a non-empty name it appends exactly one rule at the end of the
list, carrying the name, condition, action, enabled flag and time of the form, and leaves all
existing rules unchanged. -/
theorem addAutomation_spec (ed : RuleEditor) (now : Nat) :
    (ed.newAutomation.name = "" → addAutomation ed now = ed)
    ∧ (ed.newAutomation.name ≠ "" →
        (addAutomation ed now).automations
          = ed.automations ++
              [{ id := now, name := ed.newAutomation.name, condition := ed.newAutomation.condition,
                 action := ed.newAutomation.action, enabled := ed.newAutomation.enabled,
                 time := ed.newAutomation.time }]
        ∧ (addAutomation ed now).automations.length = ed.automations.length + 1
        ∧ (addAutomation ed now).automations.take ed.automations.length = ed.automations) := by
  constructor
  · intro h
    simp [addAutomation, h]
  · intro h
    simp [addAutomation, h]

/-- Witness for C17: the blank form is rejected, the form with the name `Fan` adds one rule. -/
theorem addAutomation_spec_witness :
    (initialEditor.newAutomation.name = ""
      ∧ ({ initialEditor with newAutomation := { blankAutomation with name := "Fan" } }
          : RuleEditor).newAutomation.name ≠ "")
    ∧ addAutomation initialEditor 1700000000000 = initialEditor
    ∧ (addAutomation { initialEditor with newAutomation := { blankAutomation with name := "Fan" } }
        1700000000000).automations.length = initialEditor.automations.length + 1 :=
  ⟨⟨rfl, by decide⟩, (addAutomation_spec initialEditor 1700000000000).1 rfl,
    ((addAutomation_spec { initialEditor with newAutomation := { blankAutomation with name := "Fan" } }
      1700000000000).2 (by decide)).2.1⟩



/-- Toggling a rule keeps the ids of the list. -/
theorem toggleAutomation_ids (ed : RuleEditor) (id : Nat) :
    (toggleAutomation ed id).automations.map (fun a => a.id)
      = ed.automations.map (fun a => a.id) := by
  simp only [toggleAutomation, List.map_map]
  apply List.map_congr_left
  intro a _
  by_cases h : a.id = id <;> simp [h]

/-- When every add reads a clock value above all ids handed out so far, the ids stay distinct. -/
theorem ruleRun_ids_nodup (evs : List RuleEvent) (ed : RuleEditor) (bound : Nat)
    (hn : (ed.automations.map (fun a => a.id)).Nodup)
    (hb : ∀ a ∈ ed.automations, a.id ≤ bound)
    (hs : (bound :: addTimes evs).Pairwise (fun x y => x < y)) :
    ((ruleRun ed evs).automations.map (fun a => a.id)).Nodup := by
  induction evs generalizing ed bound with
  | nil => exact hn
  | cons ev rest ih =>
    simp only [ruleRun, List.foldl_cons]
    cases ev with
    | add form now =>
      simp only [addTimes, List.pairwise_cons] at hs
      have hlt : bound < now := hs.1 now (by simp)
      have hrest : (now :: addTimes rest).Pairwise (fun x y => x < y) :=
        List.pairwise_cons.mpr ⟨fun y hy => hs.2.1 y hy, hs.2.2⟩
      apply ih _ now _ _ hrest
      · simp only [ruleStep, addAutomation]
        split_ifs
        · exact hn
        · simp only [List.map_append, List.map_cons, List.map_nil]
          rw [List.nodup_append]
          refine ⟨hn, by simp, ?_⟩
          intro x hx hx2
          simp only [List.mem_singleton] at hx2
          obtain ⟨a, ha, rfl⟩ := List.mem_map.mp hx
          have := hb a ha
          omega
      · intro a ha
        simp only [ruleStep, addAutomation] at ha
        split_ifs at ha
        · have := hb a ha
          omega
        · rcases List.mem_append.mp ha with h1 | h1
          · have := hb a h1
            omega
          · simp only [List.mem_singleton] at h1
            subst h1
            exact le_refl _
    | toggle id =>
      simp only [addTimes] at hs
      apply ih _ bound _ _ hs
      · simp only [ruleStep]
        rw [toggleAutomation_ids]
        exact hn
      · intro a ha
        simp only [ruleStep, toggleAutomation, List.mem_map] at ha
        obtain ⟨b, hb1, rfl⟩ := ha
        have := hb b hb1
        by_cases h : b.id = id <;> simpa [h] using this
    | delete id =>
      simp only [addTimes] at hs
      apply ih _ bound _ _ hs
      · simp only [ruleStep, deleteAutomation]
        exact hn.sublist ((List.filter_sublist _).map _)
      · intro a ha
        simp only [ruleStep, deleteAutomation, List.mem_filter] at ha
        exact hb a ha.1

/-- C18, counterexample: two rules added at the same clock reading share their id. -/
theorem rule_ids_unique_counterexample :
    ¬ (∀ evs : List RuleEvent,
        ((ruleRun initialEditor evs).automations.map (fun a => a.id)).Nodup) := by
  intro h
  have h1 := h [.add { blankAutomation with name := "Fan" } 1700000000000,
                .add { blankAutomation with name := "Heater" } 1700000000000]
  revert h1
  decide

/-- C18, amended: starting from the initial rule list (ids 1, 2, 3), after every sequence of
`addAutomation`, `toggleAutomation` and `deleteAutomation` calls no two rules in the list share
an id, provided the `Date.now()` values read by the successive `addAutomation` calls are
strictly increasing and greater than 3. -/
theorem rule_ids_unique (evs : List RuleEvent)
    (hclock : (3 :: addTimes evs).Pairwise (fun x y => x < y)) :
    ((ruleRun initialEditor evs).automations.map (fun a => a.id)).Nodup := by
  apply ruleRun_ids_nodup evs initialEditor 3 _ _ hclock
  · decide
  · decide

/-- Witness for C18: two adds at increasing clock readings, a toggle and a delete. -/
theorem rule_ids_unique_witness :
    (3 :: addTimes [.add { blankAutomation with name := "Fan" } 1700000000000, .toggle 2,
        .add { blankAutomation with name := "Heater" } 1700000000500, .delete 1]).Pairwise
      (fun x y => x < y)
    ∧ ((ruleRun initialEditor
          [.add { blankAutomation with name := "Fan" } 1700000000000, .toggle 2,
           .add { blankAutomation with name := "Heater" } 1700000000500,
           .delete 1]).automations.map (fun a => a.id)).Nodup :=
  ⟨by decide, rule_ids_unique _ (by decide)⟩

/-! Section: repeated evaluation and the dashboard listener, claims C19 and C20. -/

/-- Firing a list of rules in order: the commands of the rules are appended to the trace when
the client is connected; the rule list and the connection flag are untouched. -/
theorem foldl_trigger_frame (now : Clock) (rules : List Automation) (st : WeatherState) :
    (rules.foldl (fun s a => triggerAutomation s a now) st).published
        = st.published ++ (if st.connected then rules.filterMap (fun a => actionCommand a.action)
            else [])
    ∧ (rules.foldl (fun s a => triggerAutomation s a now) st).connected = st.connected
    ∧ (rules.foldl (fun s a => triggerAutomation s a now) st).automations = st.automations := by
  induction rules generalizing st with
  | nil => simp
  | cons a rest ih =>
    obtain ⟨h1, h2, h3⟩ := ih (triggerAutomation st a now)
    simp only [List.foldl_cons]
    refine ⟨?_, ?_, ?_⟩
    · rw [h1]
      cases hc : st.connected <;> cases ha : actionCommand a.action <;>
        simp [triggerAutomation, hc, ha, List.filterMap_cons]
    · rw [h2]; rfl
    · rw [h3]; rfl

/-- One evaluation appends the commands of the firing rules and keeps the rule list. -/
theorem checkAutomations_frame (st : WeatherState) (w : Weather) (now : Clock) :
    (checkAutomations st w now).published
        = st.published ++ (if st.connected then firedCommands st.automations w now else [])
    ∧ (checkAutomations st w now).connected = st.connected
    ∧ (checkAutomations st w now).automations = st.automations := by
  have h := foldl_checkAutomations now w st.automations st
  unfold checkAutomations
  rw [h]
  exact foldl_trigger_frame now (firingRules st.automations w now) st

/-- Repeated evaluation keeps the rule list and the connection flag. -/
theorem checkRepeatedly_frame (n : Nat) (st : WeatherState) (w : Weather) (now : Clock) :
    (checkRepeatedly n st w now).automations = st.automations
    ∧ (checkRepeatedly n st w now).connected = st.connected := by
  induction n with
  | zero => exact ⟨rfl, rfl⟩
  | succ k ih =>
    obtain ⟨_, h2, h3⟩ := checkAutomations_frame (checkRepeatedly k st w now) w now
    simp only [checkRepeatedly]
    exact ⟨h3.trans ih.1, h2.trans ih.2⟩

/-- C19: firing has no cooldown. Which rules an evaluation fires is a function of the rule list,
the weather reading and the clock time alone: on any two states with the same rule list,
whatever their automation logs and earlier publishes, `checkAutomations` fires the same rules.
Repeated evaluation with the same reading and time keeps the rule list, fires the same rules on
every evaluation and, with a connected client, publishes the same commands every time. -/
theorem checkAutomations_no_cooldown (st : WeatherState) (w : Weather) (now : Clock) :
    (∀ st' : WeatherState, st'.automations = st.automations →
        checkAutomations st' w now
          = (firingRules st.automations w now).foldl (fun s a => triggerAutomation s a now) st')
    ∧ (∀ n, (checkRepeatedly n st w now).automations = st.automations)
    ∧ (∀ n, checkRepeatedly (n + 1) st w now
          = (firingRules st.automations w now).foldl (fun s a => triggerAutomation s a now)
              (checkRepeatedly n st w now))
    ∧ (∀ n, (checkRepeatedly (n + 1) st w now).published
          = (checkRepeatedly n st w now).published
              ++ (if st.connected then firedCommands st.automations w now else [])) := by
  refine ⟨?_, ?_, ?_, ?_⟩
  · intro st' h
    rw [← h]
    exact foldl_checkAutomations now w st'.automations st'
  · intro n
    exact (checkRepeatedly_frame n st w now).1
  · intro n
    have h := foldl_checkAutomations now w (checkRepeatedly n st w now).automations
      (checkRepeatedly n st w now)
    rw [(checkRepeatedly_frame n st w now).1] at h
    simp only [checkRepeatedly]
    unfold checkAutomations
    rw [(checkRepeatedly_frame n st w now).1]
    exact h
  · intro n
    have h := (checkAutomations_frame (checkRepeatedly n st w now) w now).1
    rw [(checkRepeatedly_frame n st w now).1, (checkRepeatedly_frame n st w now).2] at h
    simpa only [checkRepeatedly] using h

/-- Witness for C19: a state with the rule `hotRule` whose log and trace are not empty fires
the same rule as the fresh state. -/
theorem checkAutomations_no_cooldown_witness :
    (⟨true, [hotRule], [firingEntry hotRule ⟨10, 29, 5, ""⟩], [triggeredMsg]⟩
        : WeatherState).automations = (⟨true, [hotRule], [], []⟩ : WeatherState).automations
    ∧ checkAutomations ⟨true, [hotRule], [firingEntry hotRule ⟨10, 29, 5, ""⟩], [triggeredMsg]⟩
          ⟨32, "hot", "", 40, 3⟩ ⟨10, 30, 0, ""⟩
        = (firingRules (⟨true, [hotRule], [], []⟩ : WeatherState).automations
              ⟨32, "hot", "", 40, 3⟩ ⟨10, 30, 0, ""⟩).foldl
            (fun s a => triggerAutomation s a ⟨10, 30, 0, ""⟩)
            ⟨true, [hotRule], [firingEntry hotRule ⟨10, 29, 5, ""⟩], [triggeredMsg]⟩ :=
  ⟨rfl, (checkAutomations_no_cooldown ⟨true, [hotRule], [], []⟩ ⟨32, "hot", "", 40, 3⟩
      ⟨10, 30, 0, ""⟩).1 _ rfl⟩

/-- C20: for every message on `home/temperature` whose decoded payload is an object with a
`temperature` field of value `v`, the dashboard listener sets the temperature state to `v`
and leaves the motion state, and every other field, unchanged; the payload
`{"temperature": 26}` makes the temperature read 26. -/
theorem dashboard_temperature_message (st : DashboardState) (fields : List (String × JVal))
    (v : JVal) (h : lookupField "temperature" fields = some v) :
    dashboardMessageHandler "home/temperature" (some (.obj fields)) st
        = { st with temperature := v }
    ∧ (dashboardMessageHandler "home/temperature" (some (.obj fields)) st).temperature = v
    ∧ (dashboardMessageHandler "home/temperature" (some (.obj fields)) st).motionDetected
        = st.motionDetected
    ∧ (dashboardMessageHandler "home/temperature" (some (.obj fields)) st).motionTimers
        = st.motionTimers
    ∧ (dashboardMessageHandler "home/temperature"
        (some (.obj [("temperature", .num 26)])) st).temperature = .num 26 := by
  have e1 : ("home/temperature" == "home/motion") = false := by decide
  have hmain : dashboardMessageHandler "home/temperature" (some (.obj fields)) st
      = { st with temperature := v } := by
    simp [dashboardMessageHandler, onHomeMotion, onHomeTemperature, JVal.prop, e1, h, Except.bind]
  refine ⟨hmain, ?_, ?_, ?_, ?_⟩
  · rw [hmain]
  · rw [hmain]
  · rw [hmain]
  · simp [dashboardMessageHandler, onHomeMotion, onHomeTemperature, JVal.prop, e1, lookupField,
      Except.bind]

/-- Witness for C20: the payload `{"temperature": 26}` on the freshly mounted dashboard. -/
theorem dashboard_temperature_message_witness :
    lookupField "temperature" [("temperature", .num 26)] = some (.num 26)
    ∧ (dashboardMessageHandler "home/temperature" (some (.obj [("temperature", .num 26)]))
        initialDashboard).temperature = .num 26 :=
  ⟨rfl, (dashboard_temperature_message initialDashboard [("temperature", .num 26)] (.num 26)
      rfl).2.1⟩



/-! Section: message listeners and dashboard commands, claims C21 to C25. -/

/-- A message that does not decode leaves every listener of the security component without
effect. -/
theorem emit_undecodable (now : Nat) (topic : String) (ls : List Listener) (st : SecurityState) :
    ls.foldl (fun s l => securityMessageHandler l now topic none s) st = st := by
  induction ls with
  | nil => rfl
  | cons l ls ih =>
    simp only [List.foldl_cons, securityMessageHandler]
    exact ih

/-- C21: a malformed payload is equivalent to no message. For every topic, when the payload does
not decode as JSON the dashboard, weather, energy and security message listeners return
normally (the exception of `JSON.parse` is caught) with their whole state, the trace of
published messages included, unchanged; for the security component this holds for every
registered listener, for the delivery to all of them and after the following render. -/
theorem undecodable_message_ignored (topic : String) :
    (∀ st : DashboardState, dashboardMessageHandler topic none st = st)
    ∧ (∀ c : WeatherComponent, weatherMessageHandler topic none c = c)
    ∧ (∀ st : EnergyState, energyMessageHandler topic none st = .ok st)
    ∧ (∀ (l : Listener) (now : Nat) (st : SecurityState),
        securityMessageHandler l now topic none st = st)
    ∧ (∀ (now : Nat) (st : SecurityState), emitMessage now topic none st = st)
    ∧ (∀ (now : Nat) (st : SecurityState), securityStep st (.message now topic none) = st) := by
  refine ⟨fun _ => rfl, ?_, ?_, fun _ _ _ => rfl, ?_, ?_⟩
  · intro c
    simp [weatherMessageHandler]
  · intro st
    simp [energyMessageHandler]
  · intro now st
    exact emit_undecodable now topic st.listeners st
  · intro now st
    have h : emitMessage now topic none st = st := emit_undecodable now topic st.listeners st
    simp [securityStep, h, subscriptionEffect, messageRerenders, writesLog]

/-- One decoded weather message: a message on `home/weather/current` replaces the current
reading, one on `home/weather/forecast` replaces the forecast, nothing else changes. -/
theorem weatherMessageHandler_step (c : WeatherComponent) (payload : JVal) :
    weatherMessageHandler "home/weather/current" (some payload) c = { c with current := payload }
    ∧ weatherMessageHandler "home/weather/forecast" (some payload) c
        = { c with forecast := payload } := by
  constructor
  · have h1 : startsWith "home/weather/current" "home/weather" = true := by decide
    simp [weatherMessageHandler, h1]
  · have h1 : startsWith "home/weather/forecast" "home/weather" = true := by decide
    have h2 : ("home/weather/forecast" == "home/weather/current") = false := by decide
    simp [weatherMessageHandler, h1, h2]

/-- The weather state after a sequence of decoded messages on the two weather topics. -/
theorem weather_after_messages (msgs : List (String × JVal)) (c : WeatherComponent)
    (htopics : ∀ m ∈ msgs, m.1 = "home/weather/current" ∨ m.1 = "home/weather/forecast") :
    (msgs.foldl (fun s m => weatherMessageHandler m.1 (some m.2) s) c).current
        = (lastPayloadOn "home/weather/current" msgs).getD c.current
    ∧ (msgs.foldl (fun s m => weatherMessageHandler m.1 (some m.2) s) c).forecast
        = (lastPayloadOn "home/weather/forecast" msgs).getD c.forecast
    ∧ (msgs.foldl (fun s m => weatherMessageHandler m.1 (some m.2) s) c).engine = c.engine := by
  induction msgs using List.reverseRecOn with
  | nil => simp [lastPayloadOn]
  | append_singleton init m ih =>
    have hinit : ∀ x ∈ init, x.1 = "home/weather/current" ∨ x.1 = "home/weather/forecast" :=
      fun x hx => htopics x (List.mem_append_left _ hx)
    obtain ⟨ih1, ih2, ih3⟩ := ih hinit
    have hm := htopics m (List.mem_append_right _ (List.mem_singleton_self m))
    have e1 : ("home/weather/forecast" == "home/weather/current") = false := by decide
    have e2 : ("home/weather/current" == "home/weather/forecast") = false := by decide
    obtain ⟨t, p⟩ := m
    simp only [List.foldl_append, List.foldl_cons, List.foldl_nil]
    rcases hm with h | h
    · simp only at h
      subst h
      rw [(weatherMessageHandler_step _ p).1]
      simp [lastPayloadOn, List.filter_append, e2, ih2, ih3]
    · simp only at h
      subst h
      rw [(weatherMessageHandler_step _ p).2]
      simp [lastPayloadOn, List.filter_append, e1, ih1, ih3]

/-- C22: weather state is latest-value-wins. After any sequence of decodable messages on
`home/weather/current` and `home/weather/forecast`, the current reading is the payload of the
last message on `home/weather/current` and the forecast is the payload of the last message on
`home/weather/forecast` (the earlier value when there was none); a current message leaves the
forecast unchanged and a forecast message leaves the current reading unchanged. -/
theorem weather_latest_value_wins (c : WeatherComponent) :
    (∀ msgs : List (String × JVal),
        (∀ m ∈ msgs, m.1 = "home/weather/current" ∨ m.1 = "home/weather/forecast") →
        (msgs.foldl (fun s m => weatherMessageHandler m.1 (some m.2) s) c).current
            = (lastPayloadOn "home/weather/current" msgs).getD c.current
        ∧ (msgs.foldl (fun s m => weatherMessageHandler m.1 (some m.2) s) c).forecast
            = (lastPayloadOn "home/weather/forecast" msgs).getD c.forecast)
    ∧ (∀ payload : JVal,
        (weatherMessageHandler "home/weather/current" (some payload) c).current = payload
        ∧ (weatherMessageHandler "home/weather/current" (some payload) c).forecast = c.forecast
        ∧ (weatherMessageHandler "home/weather/forecast" (some payload) c).forecast = payload
        ∧ (weatherMessageHandler "home/weather/forecast" (some payload) c).current
            = c.current) := by
  constructor
  · intro msgs h
    exact ⟨(weather_after_messages msgs c h).1, (weather_after_messages msgs c h).2.1⟩
  · intro payload
    rw [(weatherMessageHandler_step c payload).1, (weatherMessageHandler_step c payload).2]
    exact ⟨rfl, rfl, rfl, rfl⟩

/-- Witness for C22: a current message, a forecast message and a second current message. -/
theorem weather_latest_value_wins_witness :
    (∀ m ∈ [("home/weather/current", JVal.num 1), ("home/weather/forecast", JVal.arr []),
            ("home/weather/current", JVal.num 2)],
        m.1 = "home/weather/current" ∨ m.1 = "home/weather/forecast")
    ∧ ([("home/weather/current", JVal.num 1), ("home/weather/forecast", JVal.arr []),
        ("home/weather/current", JVal.num 2)].foldl
          (fun s m => weatherMessageHandler m.1 (some m.2) s)
          (initialWeatherComponent true)).current
        = (lastPayloadOn "home/weather/current"
            [("home/weather/current", JVal.num 1), ("home/weather/forecast", JVal.arr []),
             ("home/weather/current", JVal.num 2)]).getD (initialWeatherComponent true).current :=
  ⟨by simp,
   ((weather_latest_value_wins (initialWeatherComponent true)).1 _ (by simp)).1⟩


/-- A topic under `home/security/` does not start with `home/energy`. -/
theorem security_topic_not_energy (rest : String) :
    startsWith ("home/security/" ++ rest) "home/energy" = false := by
  have hl : ("home/security/" ++ rest).toList = "home/security/".toList ++ rest.toList := by
    simp [String.toList]
  simp only [startsWith, hl]
  rfl

/-- Payload entries that are objects never make `find` throw: it returns the first entry with
the id looked for. -/
theorem findById_objects (deviceId : Option JVal) (entries : List (List (String × JVal))) :
    findById deviceId (entries.map JVal.obj)
      = .ok ((entries.find? fun e => strictEq (lookupField "id" e) deviceId).map JVal.obj) := by
  induction entries with
  | nil => rfl
  | cons e rest ih =>
    simp only [List.map_cons, findById, JVal.prop, List.find?_cons]
    by_cases h : strictEq (lookupField "id" e) deviceId = true
    · simp [h]
    · simp [h, ih]

/-- With payload entries that are objects, the `map` callback returns the merged row. -/
theorem mergeDevice_objects (entries : List (List (String × JVal)))
    (device : List (String × JVal)) :
    mergeDevice (.arr (entries.map JVal.obj)) device = .ok (mergedRow entries device) := by
  simp only [mergeDevice, findById_objects, mergedRow]
  cases h : entries.find? fun e => strictEq (lookupField "id" e) (lookupField "id" device) with
  | none => simp
  | some e => simp [truthy, ownFields]

/-- With payload entries that are objects, `prevDevices.map` returns the merged table. -/
theorem mapM_mergeDevice_objects (entries : List (List (String × JVal)))
    (devices : List (List (String × JVal))) :
    devices.mapM (mergeDevice (.arr (entries.map JVal.obj)))
      = .ok (devices.map (mergedRow entries)) := by
  induction devices with
  | nil => rfl
  | cons d rest ih =>
    rw [List.mapM_cons, mergeDevice_objects, ih]
    rfl

/-- The listener on a `home/energy/current` message whose payload carries a list of device
objects: the usage becomes the `watts` field and every row is merged. -/
theorem energyMessageHandler_devices (st : EnergyState) (fields : List (String × JVal))
    (entries : List (List (String × JVal)))
    (hd : lookupField "devices" fields = some (.arr (entries.map JVal.obj))) :
    energyMessageHandler "home/energy/current" (some (.obj fields)) st
      = .ok { st with currentUsage := lookupField "watts" fields
                      devices := st.devices.map (mergedRow entries) } := by
  have h1 : startsWith "home/energy/current" "home/energy" = true := by decide
  have hm := mapM_mergeDevice_objects entries st.devices
  unfold energyMessageHandler
  simp only [h1, JVal.prop, hd, truthy, hm]
  simp

/-- The energy listener on well-formed messages: for an object payload on
`home/energy/current` the current usage becomes the `watts` field of the payload, both when the
payload has no (truthy) `devices` field and when it has a list of device objects. For every
topic that does not start with `home/energy`, in particular every topic under `home/security/`,
the listener leaves the current usage, the device table and the rest of the state unchanged. -/
theorem energy_listener_topics (st : EnergyState) :
    (∀ fields : List (String × JVal), truthy (lookupField "devices" fields) = false →
        energyMessageHandler "home/energy/current" (some (.obj fields)) st
          = .ok { st with currentUsage := lookupField "watts" fields })
    ∧ (∀ (fields : List (String × JVal)) (entries : List (List (String × JVal))),
        lookupField "devices" fields = some (.arr (entries.map JVal.obj)) →
        ∃ st', energyMessageHandler "home/energy/current" (some (.obj fields)) st = .ok st'
          ∧ st'.currentUsage = lookupField "watts" fields)
    ∧ (∀ (topic : String) (message : Option JVal), startsWith topic "home/energy" = false →
        energyMessageHandler topic message st = .ok st)
    ∧ (∀ (rest : String) (message : Option JVal),
        energyMessageHandler ("home/security/" ++ rest) message st = .ok st) := by
  have h1 : startsWith "home/energy/current" "home/energy" = true := by decide
  refine ⟨?_, ?_, ?_, ?_⟩
  · intro fields hf
    cases hd : lookupField "devices" fields with
    | none => simp [energyMessageHandler, h1, JVal.prop, hd]
    | some d =>
      rw [hd] at hf
      simp [energyMessageHandler, h1, JVal.prop, hd, hf]
  · intro fields entries hd
    exact ⟨_, energyMessageHandler_devices st fields entries hd, rfl⟩
  · intro topic message ht
    simp [energyMessageHandler, ht]
  · intro rest message
    simp [energyMessageHandler, security_topic_not_energy]

/-- The energy listener on the payload `{watts: 420}` and on the topic
`home/security/motion`. -/
theorem energy_listener_topics_witness :
    (truthy (lookupField "devices" [("watts", JVal.num 420)]) = false
      ∧ startsWith "home/security/motion" "home/energy" = false)
    ∧ energyMessageHandler "home/energy/current" (some (.obj [("watts", .num 420)]))
          (initialEnergy true)
        = .ok { initialEnergy true with
                currentUsage := lookupField "watts" [("watts", JVal.num 420)] }
    ∧ energyMessageHandler "home/security/motion"
          (some (.obj [("detected", .bool true)])) (initialEnergy true)
        = .ok (initialEnergy true) :=
  ⟨⟨by decide, by decide⟩,
   (energy_listener_topics (initialEnergy true)).1 [("watts", .num 420)] (by decide),
   (energy_listener_topics (initialEnergy true)).2.2.1 "home/security/motion" _ (by decide)⟩

/-- C23, evaluated at the failing input. The message `{watts: 5, devices: [null]}` on
`home/energy/current` passes the topic test and carries the watts 5, but the listener does not
end with the current usage 5: the `setDevices` updater reads the id of the `null` entry and
throws, outside the `try` block, so there is no resulting state. The same holds for a `devices`
field that is a number. With an empty `devices` list the usage does become 5, and a message
under `home/security/` leaves the state unchanged. -/
theorem energy_usage_lost_on_null_device :
    startsWith "home/energy/current" "home/energy" = true
    ∧ lookupField "watts" nullDevicePayload = some (.num 5)
    ∧ energyMessageHandler "home/energy/current" (some (.obj nullDevicePayload))
          (initialEnergy true) = .error ()
    ∧ (∀ st', energyMessageHandler "home/energy/current" (some (.obj nullDevicePayload))
          (initialEnergy true) ≠ .ok st')
    ∧ energyMessageHandler "home/energy/current"
          (some (.obj [("watts", .num 5), ("devices", .num 7)])) (initialEnergy true) = .error ()
    ∧ energyMessageHandler "home/energy/current"
          (some (.obj [("watts", .num 5), ("devices", .arr [])])) (initialEnergy true)
        = .ok { initialEnergy true with currentUsage := some (.num 5) }
    ∧ energyMessageHandler "home/security/motion" (some (.obj nullDevicePayload))
          (initialEnergy true) = .ok (initialEnergy true) := by
  have h : energyMessageHandler "home/energy/current" (some (.obj nullDevicePayload))
      (initialEnergy true) = .error () := rfl
  refine ⟨by decide, rfl, h, ?_, rfl, rfl, rfl⟩
  intro st' hst
  rw [h] at hst
  cases hst

/-- C24: when the client is absent or not connected, `toggleLight`, `handleTemperatureChange`
and `toggleDoorLock` return without effect: the whole state is unchanged, so nothing is
published and the light, temperature and door-lock states stay as they are. -/
theorem dashboard_commands_need_connection (st : DashboardState) (value : String)
    (hc : st.connected = false) :
    toggleLight st = st
    ∧ handleTemperatureChange st value = st
    ∧ toggleDoorLock st = st
    ∧ (toggleLight st).published = st.published
    ∧ (handleTemperatureChange st value).published = st.published
    ∧ (toggleDoorLock st).published = st.published
    ∧ (toggleLight st).lightOn = st.lightOn
    ∧ (handleTemperatureChange st value).temperature = st.temperature
    ∧ (toggleDoorLock st).doorLocked = st.doorLocked := by
  have h1 : toggleLight st = st := by simp [toggleLight, hc]
  have h2 : handleTemperatureChange st value = st := by simp [handleTemperatureChange, hc]
  have h3 : toggleDoorLock st = st := by simp [toggleDoorLock, hc]
  refine ⟨h1, h2, h3, ?_, ?_, ?_, ?_, ?_, ?_⟩ <;> simp [h1, h2, h3]

/-- Witness for C24: the freshly mounted dashboard, whose client is not connected. -/
theorem dashboard_commands_need_connection_witness :
    initialDashboard.connected = false
    ∧ toggleLight initialDashboard = initialDashboard
    ∧ handleTemperatureChange initialDashboard "26" = initialDashboard
    ∧ toggleDoorLock initialDashboard = initialDashboard :=
  ⟨rfl, (dashboard_commands_need_connection initialDashboard "26" rfl).1,
    (dashboard_commands_need_connection initialDashboard "26" rfl).2.1,
    (dashboard_commands_need_connection initialDashboard "26" rfl).2.2.1⟩

/-- C25: when the client is connected, each dashboard command publishes exactly one message on
its fixed topic carrying the new state, and sets the local state to the published value:
`toggleLight` publishes `{light: !lightOn}` on `home/light`, `handleTemperatureChange` with a
slider value that reads as the integer `n` publishes `{temperature: n}` on `home/temperature`,
`toggleDoorLock` publishes `{locked: !doorLocked}` on `home/door` and `toggleCamera` publishes
`{enabled: !cameraOn}` on `home/security/camera`. -/
theorem dashboard_commands_publish (st : DashboardState) (sec : SecurityState) (now : Nat)
    (hc : st.connected = true) (hs : sec.connected = true) :
    ((toggleLight st).published
        = st.published ++ [⟨"home/light", .obj [("light", .bool (!st.lightOn))]⟩]
      ∧ (toggleLight st).lightOn = !st.lightOn)
    ∧ (∀ (value : String) (n : Int), parseInt value.toList = some n →
        (handleTemperatureChange st value).published
          = st.published ++ [⟨"home/temperature", .obj [("temperature", .num n)]⟩]
        ∧ (handleTemperatureChange st value).temperature = .num n)
    ∧ ((toggleDoorLock st).published
        = st.published ++ [⟨"home/door", .obj [("locked", .bool (!st.doorLocked))]⟩]
      ∧ (toggleDoorLock st).doorLocked = !st.doorLocked)
    ∧ ((toggleCamera sec now).published
        = sec.published ++ [⟨"home/security/camera", .obj [("enabled", .bool (!sec.cameraOn))]⟩]
      ∧ (toggleCamera sec now).cameraOn = !sec.cameraOn) := by
  refine ⟨?_, ?_, ?_, ?_⟩
  · simp [toggleLight, hc]
  · intro value n hv
    have hv2 : parseInt value.data = some n := hv
    simp [handleTemperatureChange, hc, hv2, numberOrNaN]
  · simp [toggleDoorLock, hc]
  · simp [toggleCamera, hs, logActivity]

/-- Witness for C25: the connected dashboard with the slider at 26, and the camera of the
connected security component. -/
theorem dashboard_commands_publish_witness :
    (({ initialDashboard with connected := true } : DashboardState).connected = true
      ∧ connectedStart.connected = true ∧ parseInt "26".toList = some 26)
    ∧ (handleTemperatureChange { initialDashboard with connected := true } "26").temperature
        = .num 26
    ∧ (toggleLight { initialDashboard with connected := true }).lightOn
        = !({ initialDashboard with connected := true } : DashboardState).lightOn :=
  ⟨⟨rfl, rfl, by decide⟩,
   ((dashboard_commands_publish { initialDashboard with connected := true } connectedStart 5
      rfl rfl).2.1 "26" 26 (by decide)).2,
   (dashboard_commands_publish { initialDashboard with connected := true } connectedStart 5
      rfl rfl).1.2⟩


/-! Section: the simulators and the energy figures, claims C26 to C30. -/

/-- Rounding is monotone. -/
theorem jsRound_mono {x y : ℚ} (h : x ≤ y) : jsRound x ≤ jsRound y := by
  unfold jsRound
  exact Int.floor_mono (by linarith)

/-- Rounding to the nearest integer does not go below an integer lower bound. -/
theorem roundHalfEven_ge (n : Int) (q : ℚ) (h : (n : ℚ) ≤ q) : n ≤ roundHalfEven q := by
  have hf : n ≤ ⌊q⌋ := Int.le_floor.mpr h
  unfold roundHalfEven
  simp only
  split_ifs <;> omega

/-- Rounding to the nearest integer does not go above an integer upper bound. -/
theorem roundHalfEven_le (n : Int) (q : ℚ) (h : q ≤ (n : ℚ)) : roundHalfEven q ≤ n := by
  have hf : (⌊q⌋ : ℚ) ≤ q := Int.floor_le q
  have hfn : ⌊q⌋ ≤ n := by exact_mod_cast hf.trans h
  have hlt : q - ⌊q⌋ ≥ 1 / 2 → ⌊q⌋ + 1 ≤ n := by
    intro hq
    have : (⌊q⌋ : ℚ) < n := by linarith
    have : ⌊q⌋ < n := by exact_mod_cast this
    omega
  unfold roundHalfEven
  simp only
  split_ifs with h1 h2 h3
  · exact hfn
  · exact hlt (by linarith)
  · exact hfn
  · exact hlt (by linarith)

/-- Below `2 ^ 53` the binade exponent is at most 52, so the spacing is at most 1. -/
theorem binade_le (x : ℚ) (hx : |x| < 2 ^ 53) : binade x ≤ 52 := by
  unfold binade
  apply max_le _ (by norm_num)
  by_cases h0 : 0 < |x|
  · have : Int.log 2 |x| < 53 := by
      rw [← Int.lt_zpow_iff_log_lt (by norm_num) h0]
      exact_mod_cast hx
    omega
  · have : |x| ≤ 0 := not_lt.mp h0
    rw [Int.log_of_right_le_zero 2 this]
    norm_num

/-- With an exponent of at most 52 the inverse of the spacing is an integer. -/
theorem ulp_inv (e : Int) (he : e ≤ 52) :
    ((2 : ℚ) ^ (e - 52))⁻¹ = (((2 : Int) ^ (52 - e).toNat : Int) : ℚ) := by
  have h : (52 - e) = ((52 - e).toNat : Int) := by omega
  rw [← zpow_neg]
  have : -(e - 52) = ((52 - e).toNat : Int) := by omega
  rw [this, zpow_natCast]
  push_cast
  rfl

/-- Below `2 ^ 53` rounding to binary64 does not go below an integer lower bound. -/
theorem toDouble_ge (x : ℚ) (c : Int) (hx : |x| < 2 ^ 53) (h : (c : ℚ) ≤ x) :
    (c : ℚ) ≤ toDouble x := by
  unfold toDouble
  split_ifs with h0
  · rw [h0] at h; exact h
  · have he := binade_le x hx
    have hpos : (0 : ℚ) < 2 ^ (binade x - 52) := by positivity
    have hinv := ulp_inv (binade x) he
    have hq : ((c * (2 : Int) ^ (52 - binade x).toNat : Int) : ℚ) ≤ x / 2 ^ (binade x - 52) := by
      rw [div_eq_mul_inv, hinv]
      push_cast
      apply mul_le_mul_of_nonneg_right h
      positivity
    have hr := roundHalfEven_ge _ _ hq
    have hr2 : ((c * (2 : Int) ^ (52 - binade x).toNat : Int) : ℚ)
        ≤ (roundHalfEven (x / 2 ^ (binade x - 52)) : ℚ) := by exact_mod_cast hr
    have hc : (c : ℚ) = ((c * (2 : Int) ^ (52 - binade x).toNat : Int) : ℚ)
        * 2 ^ (binade x - 52) := by
      rw [Int.cast_mul, ← hinv, mul_assoc, inv_mul_cancel₀ (ne_of_gt hpos), mul_one]
    rw [hc]
    exact mul_le_mul_of_nonneg_right hr2 hpos.le

/-- Below `2 ^ 53` rounding to binary64 does not go above an integer upper bound. -/
theorem toDouble_le (x : ℚ) (c : Int) (hx : |x| < 2 ^ 53) (h : x ≤ (c : ℚ)) :
    toDouble x ≤ (c : ℚ) := by
  unfold toDouble
  split_ifs with h0
  · rw [h0] at h; exact h
  · have he := binade_le x hx
    have hpos : (0 : ℚ) < 2 ^ (binade x - 52) := by positivity
    have hinv := ulp_inv (binade x) he
    have hq : x / 2 ^ (binade x - 52) ≤ ((c * (2 : Int) ^ (52 - binade x).toNat : Int) : ℚ) := by
      rw [div_eq_mul_inv, hinv]
      push_cast
      apply mul_le_mul_of_nonneg_right h
      positivity
    have hr := roundHalfEven_le _ _ hq
    have hr2 : (roundHalfEven (x / 2 ^ (binade x - 52)) : ℚ)
        ≤ ((c * (2 : Int) ^ (52 - binade x).toNat : Int) : ℚ) := by exact_mod_cast hr
    have hc : (c : ℚ) = ((c * (2 : Int) ^ (52 - binade x).toNat : Int) : ℚ)
        * 2 ^ (binade x - 52) := by
      rw [Int.cast_mul, ← hinv, mul_assoc, inv_mul_cancel₀ (ne_of_gt hpos), mul_one]
    rw [hc]
    exact mul_le_mul_of_nonneg_right hr2 hpos.le

/-- A number between two integers from 0 to `2 ^ 53` stays between them when rounded to
binary64. -/
theorem toDouble_between (x : ℚ) (a b : Int) (ha : (0 : ℚ) ≤ a) (hb : (b : ℚ) < 2 ^ 53)
    (h1 : (a : ℚ) ≤ x) (h2 : x ≤ (b : ℚ)) : (a : ℚ) ≤ toDouble x ∧ toDouble x ≤ (b : ℚ) := by
  have hx : |x| < 2 ^ 53 := by
    rw [abs_of_nonneg (ha.trans h1)]
    exact lt_of_le_of_lt h2 hb
  exact ⟨toDouble_ge x a hx h1, toDouble_le x b hx h2⟩

/-- The binade exponent of a number between two consecutive powers of two. -/
theorem binade_eq (x : ℚ) (e : Int) (he : -1022 ≤ e) (h1 : (2 : ℚ) ^ e ≤ |x|)
    (h2 : |x| < (2 : ℚ) ^ (e + 1)) : binade x = e := by
  have h0 : 0 < |x| := lt_of_lt_of_le (by positivity) h1
  have a1 : e ≤ Int.log 2 |x| := by
    rw [← Int.zpow_le_iff_le_log (by norm_num) h0]
    exact_mod_cast h1
  have a2 : Int.log 2 |x| < e + 1 := by
    rw [← Int.lt_zpow_iff_log_lt (by norm_num) h0]
    exact_mod_cast h2
  unfold binade
  omega

/-- Rounding to the nearest integer, given the integer part. -/
theorem roundHalfEven_eq (q : ℚ) (f : Int) (h1 : (f : ℚ) ≤ q) (h2 : q < f + 1) :
    roundHalfEven q =
      if q - f < 1 / 2 then f
      else if 1 / 2 < q - f then f + 1
      else if f % 2 = 0 then f else f + 1 := by
  have hf : ⌊q⌋ = f := by rw [Int.floor_eq_iff]; exact ⟨h1, h2⟩
  unfold roundHalfEven
  simp only [hf]

/-- Rounding to binary64, given the binade exponent and the rounded significand. -/
theorem toDouble_eq (x : ℚ) (e m : Int) (hx : x ≠ 0) (he : binade x = e)
    (hm : roundHalfEven (x / (2 : ℚ) ^ (e - 52)) = m) :
    toDouble x = m * (2 : ℚ) ^ (e - 52) := by
  unfold toDouble
  rw [if_neg hx, he, hm]

/-- The product and sum steps of the day-time base power at the draw `1 - 2 ^ (-52)`. -/
theorem toDouble_day_steps :
    toDouble ((1 - 1 / 2 ^ 52) * 100) = 100 - 1 / 2 ^ 45
    ∧ toDouble (200 + (100 - 1 / 2 ^ 45)) = 300 := by
  constructor
  · rw [toDouble_eq _ 6 (100 * 2 ^ 46 - 2) (by norm_num)
      (binade_eq _ 6 (by norm_num) (by norm_num [abs_of_pos]) (by norm_num [abs_of_pos]))
      (by rw [roundHalfEven_eq _ (100 * 2 ^ 46 - 2) (by norm_num) (by norm_num)]; norm_num)]
    norm_num
  · rw [toDouble_eq _ 8 (300 * 2 ^ 44) (by norm_num)
      (binade_eq _ 8 (by norm_num) (by norm_num [abs_of_pos]) (by norm_num [abs_of_pos]))
      (by rw [roundHalfEven_eq _ (300 * 2 ^ 44 - 1) (by norm_num) (by norm_num)]; norm_num)]
    norm_num

/-- The product and sum steps of the evening base power at the draw `1 - 2 ^ (-52)`. -/
theorem toDouble_evening_steps :
    toDouble ((1 - 1 / 2 ^ 52) * 150) = 150 - 1 / 2 ^ 45
    ∧ toDouble (300 + (150 - 1 / 2 ^ 45)) = 450 := by
  constructor
  · rw [toDouble_eq _ 7 (150 * 2 ^ 45 - 1) (by norm_num)
      (binade_eq _ 7 (by norm_num) (by norm_num [abs_of_pos]) (by norm_num [abs_of_pos]))
      (by rw [roundHalfEven_eq _ (150 * 2 ^ 45 - 2) (by norm_num) (by norm_num)]; norm_num)]
    norm_num
  · rw [toDouble_eq _ 8 (450 * 2 ^ 44) (by norm_num)
      (binade_eq _ 8 (by norm_num) (by norm_num [abs_of_pos]) (by norm_num [abs_of_pos]))
      (by rw [roundHalfEven_eq _ (450 * 2 ^ 44 - 1) (by norm_num) (by norm_num)]; norm_num)]
    norm_num

/-- The product and sum steps of the night base power at the draw `1 - 2 ^ (-53)`. -/
theorem toDouble_night_steps :
    toDouble ((1 - 1 / 2 ^ 53) * 100) = 100 - 1 / 2 ^ 46
    ∧ toDouble (100 + (100 - 1 / 2 ^ 46)) = 200 := by
  constructor
  · rw [toDouble_eq _ 6 (100 * 2 ^ 46 - 1) (by norm_num)
      (binade_eq _ 6 (by norm_num) (by norm_num [abs_of_pos]) (by norm_num [abs_of_pos]))
      (by rw [roundHalfEven_eq _ (100 * 2 ^ 46 - 1) (by norm_num) (by norm_num)]; norm_num)]
    norm_num
  · rw [toDouble_eq _ 7 (200 * 2 ^ 45) (by norm_num)
      (binade_eq _ 7 (by norm_num) (by norm_num [abs_of_pos]) (by norm_num [abs_of_pos]))
      (by rw [roundHalfEven_eq _ (200 * 2 ^ 45 - 1) (by norm_num) (by norm_num)]; norm_num)]
    norm_num

/-- The draws `1 - 2 ^ (-52)` and `1 - 2 ^ (-53)` are binary64 numbers. -/
theorem toDouble_largest_draws :
    toDouble (1 - 1 / 2 ^ 52) = 1 - 1 / 2 ^ 52 ∧ toDouble (1 - 1 / 2 ^ 53) = 1 - 1 / 2 ^ 53 := by
  constructor
  · rw [toDouble_eq _ (-1) (2 ^ 53 - 2) (by norm_num)
      (binade_eq _ (-1) (by norm_num) (by norm_num [abs_of_pos]) (by norm_num [abs_of_pos]))
      (by rw [roundHalfEven_eq _ (2 ^ 53 - 2) (by norm_num) (by norm_num)]; norm_num)]
    norm_num
  · rw [toDouble_eq _ (-1) (2 ^ 53 - 1) (by norm_num)
      (binade_eq _ (-1) (by norm_num) (by norm_num [abs_of_pos]) (by norm_num [abs_of_pos]))
      (by rw [roundHalfEven_eq _ (2 ^ 53 - 1) (by norm_num) (by norm_num)]; norm_num)]
    norm_num

/-- C26, counterexample: the draw `1 - 2 ^ (-52)` is a binary64 number in [0,1), and with it the
base power is exactly 300 at hour 12, by day, and exactly 450 at hour 19, in the evening; with
the draw `1 - 2 ^ (-53)` it is exactly 200 at hour 3, at night. The upper bounds 200, 300 and
450 are reached, so the base power does not always lie in the half-open intervals. -/
theorem basePower_upper_bound_counterexample :
    ((0 : ℚ) ≤ 1 - 1 / 2 ^ 52 ∧ (1 - 1 / 2 ^ 52 : ℚ) < 1
      ∧ toDouble (1 - 1 / 2 ^ 52) = 1 - 1 / 2 ^ 52)
    ∧ basePower 12 (1 - 1 / 2 ^ 52) = 300
    ∧ basePower 19 (1 - 1 / 2 ^ 52) = 450
    ∧ basePower 3 (1 - 1 / 2 ^ 53) = 200
    ∧ jsRound (basePower 12 (1 - 1 / 2 ^ 52)) = 300
    ∧ ¬ (∀ (h : Nat) (r : ℚ), 0 ≤ r → r < 1 → toDouble r = r →
        ((22 ≤ h ∨ h ≤ 5) → 100 ≤ basePower h r ∧ basePower h r < 200)
        ∧ ((6 ≤ h ∧ h ≤ 16) → 200 ≤ basePower h r ∧ basePower h r < 300)
        ∧ ((17 ≤ h ∧ h ≤ 21) → 300 ≤ basePower h r ∧ basePower h r < 450)) := by
  have hday : basePower 12 (1 - 1 / 2 ^ 52) = 300 := by
    have c1 : ¬ ((12 : Nat) ≥ 22 ∨ (12 : Nat) < 6) := by decide
    have c2 : ¬ ((12 : Nat) ≥ 17 ∧ (12 : Nat) < 22) := by decide
    simp only [basePower, if_neg c1, if_neg c2]
    rw [toDouble_day_steps.1, toDouble_day_steps.2]
  have heve : basePower 19 (1 - 1 / 2 ^ 52) = 450 := by
    have c1 : ¬ ((19 : Nat) ≥ 22 ∨ (19 : Nat) < 6) := by decide
    have c2 : (19 : Nat) ≥ 17 ∧ (19 : Nat) < 22 := by decide
    simp only [basePower, if_neg c1, if_pos c2]
    rw [toDouble_evening_steps.1, toDouble_evening_steps.2]
  have hnight : basePower 3 (1 - 1 / 2 ^ 53) = 200 := by
    have c1 : (3 : Nat) ≥ 22 ∨ (3 : Nat) < 6 := by decide
    simp only [basePower, if_pos c1]
    rw [toDouble_night_steps.1, toDouble_night_steps.2]
  refine ⟨⟨by norm_num, by norm_num, toDouble_largest_draws.1⟩, hday, heve, hnight, ?_, ?_⟩
  · rw [hday]
    unfold jsRound
    rw [Int.floor_eq_iff]
    norm_num
  · intro hall
    have hb := ((hall 12 (1 - 1 / 2 ^ 52) (by norm_num) (by norm_num)
      toDouble_largest_draws.1).2.1 (by decide)).2
    rw [hday] at hb
    exact lt_irrefl _ hb

/-- C26, amended: the simulated power reading is biased by time of day. Every hour from 0 to 23
falls into exactly one of night (22 to 5), evening (17 to 21) and day (6 to 16); for every
random draw in [0,1) the base power, computed in binary64, lies in [100,200] at night, in
[200,300] by day and in [300,450] in the evening, the upper bounds included; so every evening
base power and rounded reading is at least every daytime one, which is at least every night
one. -/
theorem basePower_by_period :
    (∀ h : Nat, h < 24 →
        ((22 ≤ h ∨ h ≤ 5) ∧ ¬ (17 ≤ h ∧ h ≤ 21) ∧ ¬ (6 ≤ h ∧ h ≤ 16))
        ∨ (¬ (22 ≤ h ∨ h ≤ 5) ∧ (17 ≤ h ∧ h ≤ 21) ∧ ¬ (6 ≤ h ∧ h ≤ 16))
        ∨ (¬ (22 ≤ h ∨ h ≤ 5) ∧ ¬ (17 ≤ h ∧ h ≤ 21) ∧ (6 ≤ h ∧ h ≤ 16)))
    ∧ (∀ (h : Nat) (r : ℚ), 0 ≤ r → r < 1 →
        ((22 ≤ h ∨ h ≤ 5) → 100 ≤ basePower h r ∧ basePower h r ≤ 200)
        ∧ ((6 ≤ h ∧ h ≤ 16) → 200 ≤ basePower h r ∧ basePower h r ≤ 300)
        ∧ ((17 ≤ h ∧ h ≤ 21) → 300 ≤ basePower h r ∧ basePower h r ≤ 450))
    ∧ (∀ (night day evening : Nat) (rn rd re : ℚ),
        (22 ≤ night ∨ night ≤ 5) → (6 ≤ day ∧ day ≤ 16) → (17 ≤ evening ∧ evening ≤ 21) →
        0 ≤ rn → rn < 1 → 0 ≤ rd → rd < 1 → 0 ≤ re → re < 1 →
        basePower night rn ≤ basePower day rd
        ∧ basePower day rd ≤ basePower evening re
        ∧ jsRound (basePower night rn) ≤ jsRound (basePower day rd)
        ∧ jsRound (basePower day rd) ≤ jsRound (basePower evening re)) := by
  have step : ∀ (base width : Int) (r : ℚ), 0 ≤ base → 0 ≤ width → base + width ≤ 1000 →
      0 ≤ r → r < 1 →
      (base : ℚ) ≤ toDouble (base + toDouble (r * width))
      ∧ toDouble (base + toDouble (r * width)) ≤ ((base + width : Int) : ℚ) := by
    intro base width r hb hw hbw h0 h1
    have hbq : (0 : ℚ) ≤ base := by exact_mod_cast hb
    have hwq : (0 : ℚ) ≤ width := by exact_mod_cast hw
    have hbwq : ((base + width : Int) : ℚ) ≤ 1000 := by exact_mod_cast hbw
    have hwq2 : (width : ℚ) ≤ 1000 := by
      have : ((base + width : Int) : ℚ) = base + width := by push_cast; ring
      linarith
    have hp := toDouble_between (r * width) 0 width (by norm_num)
      (lt_of_le_of_lt hwq2 (by norm_num))
      (by push_cast; exact mul_nonneg h0 hwq)
      (by nlinarith)
    have hp0 : (0 : ℚ) ≤ toDouble (r * width) := by simpa using hp.1
    have hs := toDouble_between (base + toDouble (r * width)) base (base + width) hbq
      (lt_of_le_of_lt hbwq (by norm_num))
      (by linarith)
      (by push_cast; linarith [hp.2])
    exact hs
  have bounds : ∀ (h : Nat) (r : ℚ), 0 ≤ r → r < 1 →
        ((22 ≤ h ∨ h ≤ 5) → 100 ≤ basePower h r ∧ basePower h r ≤ 200)
        ∧ ((6 ≤ h ∧ h ≤ 16) → 200 ≤ basePower h r ∧ basePower h r ≤ 300)
        ∧ ((17 ≤ h ∧ h ≤ 21) → 300 ≤ basePower h r ∧ basePower h r ≤ 450) := by
    intro h r h0 h1
    refine ⟨?_, ?_, ?_⟩
    · intro hn
      have c1 : h ≥ 22 ∨ h < 6 := by omega
      simp only [basePower, if_pos c1]
      have hs := step 100 100 r (by norm_num) (by norm_num) (by norm_num) h0 h1
      norm_num at hs
      exact hs
    · intro hd
      have c1 : ¬ (h ≥ 22 ∨ h < 6) := by omega
      have c2 : ¬ (h ≥ 17 ∧ h < 22) := by omega
      simp only [basePower, if_neg c1, if_neg c2]
      have hs := step 200 100 r (by norm_num) (by norm_num) (by norm_num) h0 h1
      norm_num at hs
      exact hs
    · intro he
      have c1 : ¬ (h ≥ 22 ∨ h < 6) := by omega
      have c2 : h ≥ 17 ∧ h < 22 := by omega
      simp only [basePower, if_neg c1, if_pos c2]
      have hs := step 300 150 r (by norm_num) (by norm_num) (by norm_num) h0 h1
      norm_num at hs
      exact hs
  refine ⟨?_, bounds, ?_⟩
  · intro h hh
    omega
  · intro night day evening rn rd re hn hd he hn0 hn1 hd0 hd1 he0 he1
    have bn := (bounds night rn hn0 hn1).1 hn
    have bd := (bounds day rd hd0 hd1).2.1 hd
    have be := (bounds evening re he0 he1).2.2 he
    have o1 : basePower night rn ≤ basePower day rd := by linarith
    have o2 : basePower day rd ≤ basePower evening re := by linarith
    exact ⟨o1, o2, jsRound_mono o1, jsRound_mono o2⟩

/-- Witness for C26: hour 19 and the draw one half give an evening base power from 300 to
450. -/
theorem basePower_by_period_witness :
    (19 < 24 ∧ (17 ≤ 19 ∧ 19 ≤ 21) ∧ (0 : ℚ) ≤ 1 / 2 ∧ (1 / 2 : ℚ) < 1)
    ∧ (300 ≤ basePower 19 (1 / 2) ∧ basePower 19 (1 / 2) ≤ 450) :=
  ⟨⟨by decide, by decide, by norm_num, by norm_num⟩,
   (basePower_by_period.2.1 19 (1 / 2) (by norm_num) (by norm_num)).2.2 (by decide)⟩

/-- The topic of an automation command is none of the weather topics. -/
theorem actionCommand_topic (action : String) (msg : Msg) (h : actionCommand action = some msg) :
    msg.topic = "home/light" ∨ msg.topic = "home/blinds" ∨ msg.topic = "home/temperature" := by
  unfold actionCommand at h
  split_ifs at h <;> simp at h <;> subst h <;> simp

/-- Automation commands do not count as messages on a weather topic. -/
theorem countTopic_commands (topic : String) (rules : List Automation)
    (ht : topic ≠ "home/light" ∧ topic ≠ "home/blinds" ∧ topic ≠ "home/temperature") :
    countTopic topic (rules.filterMap fun a => actionCommand a.action) = 0 := by
  unfold countTopic
  rw [List.length_eq_zero, List.filter_eq_nil_iff]
  intro m hm
  obtain ⟨a, _, ha⟩ := List.mem_filterMap.mp hm
  rcases actionCommand_topic a.action m ha with h | h | h <;>
    simp [h, Ne.symm ht.1, Ne.symm ht.2.1, Ne.symm ht.2.2]

/-- Counting the messages on a topic distributes over the concatenation of traces. -/
theorem countTopic_append (topic : String) (xs ys : List Msg) :
    countTopic topic (xs ++ ys) = countTopic topic xs + countTopic topic ys := by
  simp [countTopic, List.filter_append]

/-- What one tick of the weather simulator publishes with a connected client: the reading, the
forecast, then the commands of the rules that fire. -/
theorem simulateWeather_published (c : WeatherComponent) (draws : WeatherDraws) (now : Clock)
    (hc : c.engine.connected = true) :
    (simulateWeather c draws now).engine.published
      = c.engine.published
        ++ [⟨"home/weather/current", (simulatedWeather draws).toJson⟩,
            ⟨"home/weather/forecast",
              JVal.arr ((List.range 5).map (forecastEntry (simulatedWeather draws).temp draws))⟩]
        ++ firedCommands c.engine.automations (simulatedWeather draws) now := by
  simp only [simulateWeather, hc, if_true]
  rw [(checkAutomations_frame _ _ _).1]
  simp [hc]

/-- C27: each simulator tick publishes exactly one message per channel it owns. A tick of the
standalone publisher appends exactly two messages, one on `home/temperature` and one on
`home/motion`; a tick of the weather simulator with a connected client publishes exactly one
message on `home/weather/current` and exactly one on `home/weather/forecast` (besides the
commands of the automation rules that fire, which go to other topics). -/
theorem simulator_ticks_publish_once (tempDraw motionDraw : ℚ) (published : List Msg)
    (c : WeatherComponent) (draws : WeatherDraws) (now : Clock)
    (hc : c.engine.connected = true) :
    (publisherTick tempDraw motionDraw published).length = published.length + 2
    ∧ countTopic "home/temperature" (publisherTick tempDraw motionDraw published)
        = countTopic "home/temperature" published + 1
    ∧ countTopic "home/motion" (publisherTick tempDraw motionDraw published)
        = countTopic "home/motion" published + 1
    ∧ countTopic "home/weather/current" (simulateWeather c draws now).engine.published
        = countTopic "home/weather/current" c.engine.published + 1
    ∧ countTopic "home/weather/forecast" (simulateWeather c draws now).engine.published
        = countTopic "home/weather/forecast" c.engine.published + 1 := by
  have e1 : ("home/motion" == "home/temperature") = false := by decide
  have e2 : ("home/temperature" == "home/motion") = false := by decide
  have e3 : ("home/weather/forecast" == "home/weather/current") = false := by decide
  have e4 : ("home/weather/current" == "home/weather/forecast") = false := by decide
  refine ⟨?_, ?_, ?_, ?_, ?_⟩
  · simp [publisherTick]
  · simp [publisherTick, countTopic, List.filter_append, e1]
  · simp [publisherTick, countTopic, List.filter_append, e2]
  · rw [simulateWeather_published c draws now hc, countTopic_append, countTopic_append]
    have h0 := countTopic_commands "home/weather/current"
      (firingRules c.engine.automations (simulatedWeather draws) now)
      (by decide)
    unfold firedCommands
    rw [h0]
    simp [countTopic, e3]
  · rw [simulateWeather_published c draws now hc, countTopic_append, countTopic_append]
    have h0 := countTopic_commands "home/weather/forecast"
      (firingRules c.engine.automations (simulatedWeather draws) now)
      (by decide)
    unfold firedCommands
    rw [h0]
    simp [countTopic, e4]

/-- Witness for C27: a tick of both simulators on fresh, connected components. -/
theorem simulator_ticks_publish_once_witness :
    (initialWeatherComponent true).engine.connected = true
    ∧ countTopic "home/weather/current"
        (simulateWeather (initialWeatherComponent true)
          ⟨1 / 2, 1 / 2, 1 / 2, fun _ => 1 / 2, fun _ => "Mon, Jan 1"⟩
          ⟨9, 3, 0, "9:03:00 AM"⟩).engine.published
        = countTopic "home/weather/current" (initialWeatherComponent true).engine.published + 1
    ∧ (publisherTick (1 / 2) (3 / 4) []).length = ([] : List Msg).length + 2 :=
  ⟨rfl,
   (simulator_ticks_publish_once (1 / 2) (3 / 4) [] (initialWeatherComponent true)
      ⟨1 / 2, 1 / 2, 1 / 2, fun _ => 1 / 2, fun _ => "Mon, Jan 1"⟩ ⟨9, 3, 0, "9:03:00 AM"⟩
      rfl).2.2.2.1,
   (simulator_ticks_publish_once (1 / 2) (3 / 4) [] (initialWeatherComponent true)
      ⟨1 / 2, 1 / 2, 1 / 2, fun _ => 1 / 2, fun _ => "Mon, Jan 1"⟩ ⟨9, 3, 0, "9:03:00 AM"⟩
      rfl).1⟩


/-- The progress between the two thresholds rounds to a value from 0 to 100. -/
theorem savings_middle_bounds (c g : ℚ) (hg : 0 < g) (h1 : ¬ c ≤ 5 - 5 * (g / 100))
    (h2 : ¬ c ≥ 5) :
    0 ≤ jsRound ((5 - c) / (5 * (g / 100)) * 100)
    ∧ jsRound ((5 - c) / (5 * (g / 100)) * 100) ≤ 100 := by
  have hR : (0 : ℚ) < 5 * (g / 100) := by positivity
  have hx0 : 0 ≤ (5 - c) / (5 * (g / 100)) := by
    apply div_nonneg _ hR.le
    linarith
  have hx1 : (5 - c) / (5 * (g / 100)) < 1 := by
    rw [div_lt_one hR]
    linarith
  unfold jsRound
  constructor
  · rw [Int.floor_nonneg]
    linarith
  · have hlt : ⌊(5 - c) / (5 * (g / 100)) * 100 + 1 / 2⌋ < 101 := by
      rw [Int.floor_lt]
      push_cast
      linarith
    omega

/-- C28: for every total consumption and every savings goal greater than 0,
`calculateSavingsProgress` returns a value from 0 to 100; it returns 100 whenever the
consumption is at most the target usage 5 - 5 * goal / 100, returns 0 whenever the consumption
is at least the baseline 5, and never increases when the consumption increases. -/
theorem calculateSavingsProgress_spec (c g : ℚ) (hg : 0 < g) :
    (0 ≤ calculateSavingsProgress c g ∧ calculateSavingsProgress c g ≤ 100)
    ∧ (c ≤ 5 - 5 * g / 100 → calculateSavingsProgress c g = 100)
    ∧ (5 ≤ c → calculateSavingsProgress c g = 0)
    ∧ (∀ c' : ℚ, c ≤ c' → calculateSavingsProgress c' g ≤ calculateSavingsProgress c g) := by
  have hR : (0 : ℚ) < 5 * (g / 100) := by positivity
  have range : ∀ x : ℚ, 0 ≤ calculateSavingsProgress x g ∧ calculateSavingsProgress x g ≤ 100 := by
    intro x
    simp only [calculateSavingsProgress]
    split_ifs with h1 h2
    · exact ⟨by norm_num, le_refl _⟩
    · exact ⟨le_refl _, by norm_num⟩
    · exact savings_middle_bounds x g hg h1 h2
  refine ⟨range c, ?_, ?_, ?_⟩
  · intro h
    have h' : c ≤ 5 - 5 * (g / 100) := by linarith
    simp [calculateSavingsProgress, h']
  · intro h
    have h' : ¬ c ≤ 5 - 5 * (g / 100) := by linarith
    simp [calculateSavingsProgress, h', h]
  · intro c' hcc
    by_cases a1 : c ≤ 5 - 5 * (g / 100)
    · have e : calculateSavingsProgress c g = 100 := by simp [calculateSavingsProgress, a1]
      rw [e]
      exact (range c').2
    · by_cases b2 : c' ≥ 5
      · have b1 : ¬ c' ≤ 5 - 5 * (g / 100) := by linarith
        have e : calculateSavingsProgress c' g = 0 := by
          simp [calculateSavingsProgress, b1, b2]
        rw [e]
        exact (range c).1
      · have a2 : ¬ c ≥ 5 := by
          intro h
          exact b2 (le_trans h hcc)
        have b1 : ¬ c' ≤ 5 - 5 * (g / 100) := by
          intro h
          exact a1 (le_trans hcc h)
        simp only [calculateSavingsProgress, if_neg a1, if_neg a2, if_neg b1, if_neg b2]
        apply jsRound_mono
        apply mul_le_mul_of_nonneg_right _ (by norm_num)
        apply div_le_div_of_nonneg_right _ hR.le
        linarith

/-- Witness for C28: a consumption of 4.5 kWh against a goal of 15 percent gives 67. -/
theorem calculateSavingsProgress_spec_witness :
    (0 : ℚ) < 15
    ∧ (0 ≤ calculateSavingsProgress (9 / 2) 15 ∧ calculateSavingsProgress (9 / 2) 15 ≤ 100) :=
  ⟨by norm_num, (calculateSavingsProgress_spec (9 / 2) 15 (by norm_num)).1⟩

/-- Strictly equal property reads are equal. -/
theorem strictEq_eq {a b : Option JVal} (h : strictEq a b = true) : a = b := by
  unfold strictEq at h
  split at h <;> simp_all

/-- Key lookup in a concatenation: the later part wins. -/
theorem lookupField_append (key : String) (xs ys : List (String × JVal)) :
    lookupField key (xs ++ ys)
      = match lookupField key ys with
        | some w => some w
        | none => lookupField key xs := by
  induction xs with
  | nil => cases h : lookupField key ys <;> simp [lookupField, h]
  | cons kv rest ih =>
    obtain ⟨k, v⟩ := kv
    rw [List.cons_append]
    simp only [lookupField]
    rw [ih]
    cases h : lookupField key ys <;> simp

/-- Key lookup in the overridden part of a spread. -/
theorem lookupField_override (key : String) (base update : List (String × JVal)) :
    lookupField key (base.map fun kv => (kv.1, (lookupField kv.1 update).getD kv.2))
      = (lookupField key base).map fun v => (lookupField key update).getD v := by
  induction base with
  | nil => rfl
  | cons kv rest ih =>
    obtain ⟨k, v⟩ := kv
    simp only [List.map_cons, lookupField, ih]
    cases h : lookupField key rest with
    | some w => simp
    | none =>
      by_cases hk : k = key
      · subst hk; simp
      · simp [hk]

/-- Key lookup in the added part of a spread. -/
theorem lookupField_added (key : String) (base update : List (String × JVal)) :
    lookupField key (update.filter fun kv => (lookupField kv.1 base).isNone)
      = if (lookupField key base).isNone then lookupField key update else none := by
  induction update with
  | nil => simp [lookupField]
  | cons kv rest ih =>
    obtain ⟨k, v⟩ := kv
    rw [List.filter_cons]
    by_cases hb : (lookupField k base).isNone = true
    · simp only [hb, if_true, lookupField]
      rw [ih]
      by_cases hk : k = key
      · subst hk
        simp [hb]
      · by_cases hkb : (lookupField key base).isNone = true
        · cases hr : lookupField key rest <;> simp [hk, hkb, hr]
        · simp [hk, hkb]
    · simp only [hb, lookupField, Bool.false_eq_true, if_false]
      rw [ih]
      by_cases hk : k = key
      · subst hk
        simp [hb]
      · by_cases hkb : (lookupField key base).isNone = true
        · cases hr : lookupField key rest <;> simp [hk, hkb, hr]
        · simp [hk, hkb]

/-- Key lookup in a spread: the value of the update when it has the key, else that of the base. -/
theorem lookupField_spread (key : String) (base update : List (String × JVal)) :
    lookupField key (spread base update)
      = match lookupField key update with
        | some v => some v
        | none => lookupField key base := by
  unfold spread
  rw [lookupField_append, lookupField_added, lookupField_override]
  cases hb : lookupField key base <;> cases hu : lookupField key update <;> simp


/-- The merged row keeps the id of the row. -/
theorem mergedRow_id (entries : List (List (String × JVal))) (row : List (String × JVal)) :
    lookupField "id" (mergedRow entries row) = lookupField "id" row := by
  unfold mergedRow
  cases h : entries.find? fun e => strictEq (lookupField "id" e) (lookupField "id" row) with
  | none => rfl
  | some e =>
    have hmatch := List.find?_some h
    have hid := strictEq_eq hmatch
    simp only
    rw [lookupField_spread, hid]
    cases lookupField "id" row <;> rfl

/-- Payload entries whose id no row of the table carries do not change the merged row. -/
theorem mergedRow_ignores (entries : List (List (String × JVal)))
    (devices : List (List (String × JVal))) (row : List (String × JVal)) (hrow : row ∈ devices) :
    mergedRow (entries.filter fun e =>
        devices.any fun r => strictEq (lookupField "id" e) (lookupField "id" r)) row
      = mergedRow entries row := by
  have hfind : (entries.filter fun e =>
        devices.any fun r => strictEq (lookupField "id" e) (lookupField "id" r)).find?
        (fun e => strictEq (lookupField "id" e) (lookupField "id" row))
      = entries.find? fun e => strictEq (lookupField "id" e) (lookupField "id" row) := by
    rw [List.find?_filter]
    congr 1
    funext e
    cases hm : strictEq (lookupField "id" e) (lookupField "id" row) with
    | false => simp
    | true =>
      simp only [and_true, decide_eq_true_eq, List.any_eq_true]
      exact ⟨row, hrow, hm⟩
  unfold mergedRow
  rw [hfind]

/-- The device table after a well-formed message: for every device table and every
`home/energy/current` message whose payload has a
list of device objects, the listener returns normally and the updated table has the same length,
the same order and the same ids as before: the row at every position keeps its id, is unchanged
when no payload entry has its id, and otherwise takes, key by key, the fields of the first
payload entry with its id and keeps its own value for the keys that entry does not have.
Payload entries with ids not in the table are ignored. -/
theorem energy_devices_update (st : EnergyState) (fields : List (String × JVal))
    (entries : List (List (String × JVal)))
    (hd : lookupField "devices" fields = some (.arr (entries.map JVal.obj))) :
    ∃ st', energyMessageHandler "home/energy/current" (some (.obj fields)) st = .ok st'
      ∧ st'.devices.length = st.devices.length
      ∧ st'.devices.map (lookupField "id") = st.devices.map (lookupField "id")
      ∧ (∀ (i : Nat) (row : List (String × JVal)), st.devices[i]? = some row →
          ∃ row', st'.devices[i]? = some row'
            ∧ lookupField "id" row' = lookupField "id" row
            ∧ ((∀ e ∈ entries, strictEq (lookupField "id" e) (lookupField "id" row) = false) →
                row' = row)
            ∧ (∀ e, entries.find? (fun e =>
                  strictEq (lookupField "id" e) (lookupField "id" row)) = some e →
                ∀ key, lookupField key row'
                  = match lookupField key e with
                    | some v => some v
                    | none => lookupField key row))
      ∧ st'.devices = st.devices.map (mergedRow (entries.filter fun e =>
          st.devices.any fun r => strictEq (lookupField "id" e) (lookupField "id" r))) := by
  refine ⟨_, energyMessageHandler_devices st fields entries hd, ?_, ?_, ?_, ?_⟩
  · simp
  · simp only [List.map_map]
    apply List.map_congr_left
    intro row _
    exact mergedRow_id entries row
  · intro i row hi
    refine ⟨mergedRow entries row, ?_, mergedRow_id entries row, ?_, ?_⟩
    · simp [List.getElem?_map, hi]
    · intro hnone
      have hf : entries.find? (fun e =>
          strictEq (lookupField "id" e) (lookupField "id" row)) = none := by
        rw [List.find?_eq_none]
        intro e he
        simp [hnone e he]
      simp [mergedRow, hf]
    · intro e he key
      simp only [mergedRow, he]
      exact lookupField_spread key row e
  · simp only
    apply List.map_congr_left
    intro row hrow
    exact (mergedRow_ignores entries st.devices row hrow).symm

/-- The device table after a payload that sets the power of device 2 and names an unknown
device 9. -/
theorem energy_devices_update_witness :
    lookupField "devices" samplePayload = some (.arr (sampleEntries.map JVal.obj))
    ∧ ∃ st', energyMessageHandler "home/energy/current" (some (.obj samplePayload))
          (initialEnergy true) = .ok st'
        ∧ st'.devices.length = (initialEnergy true).devices.length :=
  ⟨rfl,
   (energy_devices_update (initialEnergy true) samplePayload sampleEntries rfl).imp
      fun _ h => ⟨h.1, h.2.1⟩⟩

/-- C29, evaluated at the failing input. The payload
`{watts: 5, devices: [{id: 1, power: 60}, null]}` has a devices list, but the message yields no
updated device table: for device 1 `find` stops at the first entry and the row is merged, for
device 2 it goes on to the `null` entry, reads its id and throws, outside the `try` block of
the listener. Without the `null` entry the table is updated, with the same length and the same
ids as before. -/
theorem energy_devices_update_fails_on_null_entry :
    lookupField "devices" trailingNullPayload
        = some (.arr [.obj [("id", .num 1), ("power", .num 60)], .null])
    ∧ energyMessageHandler "home/energy/current" (some (.obj trailingNullPayload))
          (initialEnergy true) = .error ()
    ∧ (∀ st', energyMessageHandler "home/energy/current" (some (.obj trailingNullPayload))
          (initialEnergy true) ≠ .ok st')
    ∧ mergeDevice (.arr [.obj [("id", .num 1), ("power", .num 60)], .null])
          [("id", .num 1), ("name", .str "Living Room Light"), ("power", .num 0),
           ("connected", .bool true)]
        = .ok [("id", .num 1), ("name", .str "Living Room Light"), ("power", .num 60),
               ("connected", .bool true)]
    ∧ mergeDevice (.arr [.obj [("id", .num 1), ("power", .num 60)], .null])
          [("id", .num 2), ("name", .str "Kitchen Appliances"), ("power", .num 0),
           ("connected", .bool true)]
        = .error ()
    ∧ (∃ st', energyMessageHandler "home/energy/current"
          (some (.obj [("watts", .num 5),
            ("devices", .arr [.obj [("id", .num 1), ("power", .num 60)]])]))
          (initialEnergy true) = .ok st'
        ∧ st'.devices.length = (initialEnergy true).devices.length
        ∧ st'.devices.map (lookupField "id")
            = (initialEnergy true).devices.map (lookupField "id")) := by
  have h : energyMessageHandler "home/energy/current" (some (.obj trailingNullPayload))
      (initialEnergy true) = .error () := rfl
  refine ⟨rfl, h, ?_, rfl, rfl, ⟨_, rfl, rfl, rfl⟩⟩
  intro st' hst
  rw [h] at hst
  cases hst

/-- Rounding a number of hundredths: `Math.round(n / 100)` is `(n + 50) / 100` rounded down. -/
theorem jsRound_hundredths (n : Int) : jsRound ((n : ℚ) / 100) = (n + 50) / 100 := by
  unfold jsRound
  have h : (n : ℚ) / 100 + 1 / 2 = ((n + 50 : Int) : ℚ) / ((100 : Nat) : ℚ) := by
    push_cast
    ring
  rw [h, Rat.floor_intCast_div_natCast]
  rfl

/-- The four device powers as integer divisions. -/
theorem devicePowers_eq (p : Int) :
    devicePowers p
      = [(15 * p + 50) / 100, (40 * p + 50) / 100, (20 * p + 50) / 100, (25 * p + 50) / 100] := by
  have h1 : (p : ℚ) * 0.15 = ((15 * p : Int) : ℚ) / 100 := by push_cast; norm_num; ring
  have h2 : (p : ℚ) * 0.4 = ((40 * p : Int) : ℚ) / 100 := by push_cast; norm_num; ring
  have h3 : (p : ℚ) * 0.2 = ((20 * p : Int) : ℚ) / 100 := by push_cast; norm_num; ring
  have h4 : (p : ℚ) * 0.25 = ((25 * p : Int) : ℚ) / 100 := by push_cast; norm_num; ring
  simp only [devicePowers, h1, h2, h3, h4, jsRound_hundredths]

/-- C30: for every integer current power `p`, in particular every `p` that is not negative,
the four simulated device powers round(0.15 p), round(0.4 p), round(0.2 p) and round(0.25 p),
halves rounded up, add up to a value that differs from `p` by at most 1 watt. -/
theorem devicePowers_sum (p : Int) :
    (devicePowers p).length = 4
    ∧ |(devicePowers p).sum - p| ≤ 1
    ∧ (0 ≤ p → |(devicePowers p).sum - p| ≤ 1) := by
  rw [devicePowers_eq]
  have h : |([(15 * p + 50) / 100, (40 * p + 50) / 100, (20 * p + 50) / 100,
      (25 * p + 50) / 100] : List Int).sum - p| ≤ 1 := by
    simp only [List.sum_cons, List.sum_nil, add_zero]
    rw [abs_le]
    constructor <;> omega
  exact ⟨rfl, h, fun _ => h⟩

/-- Witness for C30: a current power of 10 watts gives the device powers 2, 4, 2 and 3. -/
theorem devicePowers_sum_witness :
    (0 : Int) ≤ 10 ∧ |(devicePowers 10).sum - 10| ≤ 1 :=
  ⟨by decide, (devicePowers_sum 10).2.2 (by decide)⟩

end SmartHome
